import Mathlib

/-!
Verification of the GoldBot gym-lead core (src/src-tauri/src/main.rs) against its
natural-language specification.

Shallow embedding conventions:
* Timestamps are UTC instants measured in whole minutes (`Int`); RFC 3339
  parsing/formatting is outside the model.  SQLite datetime comparisons become
  integer comparisons, `'-1 hour'` becomes `- 60`, `'+10 minutes'` becomes `+ 10`.
* Timezones are fixed offsets in minutes: `locOff` models the location's IANA
  timezone (chrono-tz) and `hostOff` models the machine timezone used by
  SQLite's `'localtime'` modifier.  With a fixed offset chrono's
  `from_local_datetime(..).single()` always succeeds, so the DST-ambiguity error
  paths of the Rust code do not arise in the model.
* The SQLite store is a record of row lists plus the `kill_switch` setting and
  per-table id counters (`last_insert_rowid`).  Store-level I/O errors (busy,
  locked) are outside the model, so the corresponding retry and `Db`-error paths
  are dead; `Validation` errors are the `Except.error` branch.
* Audit rows keep the fields the claims observe; `request_json`/`response_json`
  payloads are abstracted to a short `request_blob` rendering (for
  `flag_needs_staff_attention` the rendering keeps the `reason` field, which the
  spec distinguishes).
* `conversations.state_json` is stored already parsed (`offered_slots`), and
  scheduled-job payloads are stored as a parsed sum; serde's behaviour is kept:
  a `ReminderPayload` JSON also parses as `InitialFollowUpPayload` (extra fields
  ignored), while the converse parse fails and aborts `run_due_jobs` via `?`.
-/

namespace GoldBot

/-- Floor of minutes since the UTC epoch to local calendar days, at a fixed
timezone offset `off` (minutes). -/
def localDay (off t : Int) : Int := (t + off).fdiv 1440

/-- Minute of the local day at offset `off`. -/
def minuteOfDay (off t : Int) : Int := (t + off).emod 1440

/-- Weekday index of a day number (anchoring is conventional: day 0 is weekday 0). -/
def weekdayOf (day : Int) : Nat := (day.emod 7).toNat

/-- SlotChoice of the Rust code: a candidate appointment window, UTC minutes. -/
structure SlotChoice where
  start_at : Int
  end_at : Int
deriving Repr, DecidableEq

/-- A row of the `leads` table (the columns the gateway reads/writes). -/
structure Lead where
  id : Int
  phone_e164 : String
  first_name : Option String
  last_name : Option String
  consent : Bool
  opted_out : Bool
  status : Option String
  needs_staff_attention : Bool
  last_contact_at : Option Int
  next_action_at : Option Int
deriving Repr, DecidableEq

/-- A row of the `conversations` table; `state_json` is kept parsed as
`offered_slots`. -/
structure Conversation where
  id : Int
  lead_id : Int
  state : String
  offered_slots : List SlotChoice
  last_inbound_at : Option Int
  last_outbound_at : Option Int
  repair_attempts : Int
deriving Repr, DecidableEq

/-- A row of the `messages` table. -/
structure Message where
  id : Int
  conversation_id : Int
  direction : String
  body : String
  status : String
  created_at : Int
deriving Repr, DecidableEq

/-- A row of the `appointments` table. -/
structure Appointment where
  id : Int
  lead_id : Int
  start_at : Int
  end_at : Int
  status : String
  created_at : Int
deriving Repr, DecidableEq

/-- Parsed scheduled-job payload (`InitialFollowUpPayload` / `ReminderPayload`). -/
inductive JobPayload where
  | initialFollowUp (lead_id : Int)
  | reminder (lead_id appointment_id start_at : Int)
deriving Repr, DecidableEq

/-- A row of the `scheduled_jobs` table. -/
structure ScheduledJob where
  id : Int
  job_type : String
  target_id : Option Int
  execute_at : Int
  status : String
  payload : JobPayload
  created_at : Int
deriving Repr, DecidableEq

/-- A row of the `audit_log` table (JSON blobs abstracted to `request_blob`). -/
structure AuditEntry where
  action_type : String
  target_type : String
  target_id : Option String
  request_blob : String
  success : Bool
  error_message : Option String
  created_at : Int
deriving Repr, DecidableEq

/-- The SQLite store. -/
structure DB where
  leads : List Lead
  conversations : List Conversation
  messages : List Message
  appointments : List Appointment
  jobs : List ScheduledJob
  audit : List AuditEntry
  kill_switch : Option String
  nextMessageId : Int
  nextAppointmentId : Int
  nextJobId : Int
deriving Repr, DecidableEq

/-- The ambient environment: the process clock `now`, the machine timezone
offset used by SQLite `'localtime'`, and the Location row (timezone offset,
business hours per weekday, gym name). -/
structure Env where
  now : Int
  hostOff : Int
  locOff : Int
  hours : Nat → List (Int × Int)
  gym_name : String

/-- OutboundRequest of the Rust code. -/
structure OutboundRequest where
  lead_id : Int
  conversation_id : Int
  body : String
  automated : Bool
  allow_without_consent : Bool
  allow_opted_out_once : Bool
  allow_after_reply : Bool
  ignore_business_hours : Bool
deriving Repr, DecidableEq

/-- AppointmentRequest of the Rust code. -/
structure AppointmentRequest where
  lead_id : Int
  start_at : Int
  end_at : Int
  status : String
deriving Repr, DecidableEq

/-- ScheduleJobRequest of the Rust code (`payload_json` kept parsed). -/
structure ScheduleJobRequest where
  job_type : String
  target_id : Option Int
  execute_at : Int
  payload : JobPayload
deriving Repr, DecidableEq

/-- OptOutRequest of the Rust code. -/
structure OptOutRequest where
  lead_id : Int
  reason : String
deriving Repr, DecidableEq

/-- RunJobsResult of the Rust code. -/
structure RunJobsResult where
  processed : Int
  skipped : Int
  errors : Int
deriving Repr, DecidableEq

deriving instance DecidableEq for Except

/-- Whether an Except is the ok branch. -/
def exceptIsOk {α : Type} (e : Except String α) : Bool :=
  match e with
  | .ok _ => true
  | .error _ => false

/-- Discard the ok value of a gateway call, keeping its store: the shape of
a Rust `f(..)?; Ok(())` tail. -/
def unitResult (r : Except String Int × DB) : Except String Unit × DB :=
  (r.1.map (fun _ => ()), r.2)

/-- Map every element whose `key` equals `k` through `upd` (an SQL
UPDATE ... WHERE key = k). -/
def updBy {α : Type} (key : α → Int) (k : Int) (upd : α → α) (l : List α) : List α :=
  l.map (fun a => if key a == k then upd a else a)

/-- get_lead: SELECT from leads WHERE id = ?. -/
def get_lead (db : DB) (lead_id : Int) : Except String Lead :=
  match db.leads.find? (fun l => l.id == lead_id) with
  | some l => .ok l
  | none => .error "lead not found"

/-- get_conversation_by_lead_id: SELECT from conversations WHERE lead_id = ?. -/
def get_conversation_by_lead_id (db : DB) (lead_id : Int) : Except String Conversation :=
  match db.conversations.find? (fun c => c.lead_id == lead_id) with
  | some c => .ok c
  | none => .error "conversation not found"

/-- is_kill_switch_enabled: the `kill_switch` setting is exactly "true" or "1". -/
def is_kill_switch_enabled (db : DB) : Bool :=
  db.kill_switch == some "true" || db.kill_switch == some "1"

/-- get_kill_switch command body. -/
def get_kill_switch (db : DB) : Bool :=
  is_kill_switch_enabled db

/-- is_business_open: convert to the location's local wall clock and test
half-open membership in some interval of that weekday. -/
def is_business_open (env : Env) (when_utc : Int) : Bool :=
  let m := minuteOfDay env.locOff when_utc
  (env.hours (weekdayOf (localDay env.locOff when_utc))).any
    (fun r => decide (r.1 ≤ m) && decide (m < r.2))

/-- Whether some conversation row joins `conversation_id` to `lead_id`
(the JOIN in the per-lead/day rate query). -/
def convoLeadMatches (db : DB) (conversation_id lead_id : Int) : Bool :=
  db.conversations.any (fun c => c.id == conversation_id && c.lead_id == lead_id)

/-- The per-lead/day rate query: OUTBOUND messages of the lead whose
`date(created_at, 'localtime')` equals `date('now', 'localtime')` — SQLite's
`localtime` is the machine timezone `hostOff`. -/
def outboundCountOnHostDay (env : Env) (db : DB) (lead_id : Int) : Nat :=
  (db.messages.filter (fun m =>
    convoLeadMatches db m.conversation_id lead_id &&
    m.direction == "OUTBOUND" &&
    (localDay env.hostOff m.created_at == localDay env.hostOff env.now))).length

/-- The same count taken over the location's timezone.  Modelled from the
spec's words (claim C5 reads the rate limit as counted over the
location-local date); the code itself uses `outboundCountOnHostDay`. -/
def outboundCountOnLocationDay (env : Env) (db : DB) (lead_id : Int) : Nat :=
  (db.messages.filter (fun m =>
    convoLeadMatches db m.conversation_id lead_id &&
    m.direction == "OUTBOUND" &&
    (localDay env.locOff m.created_at == localDay env.locOff env.now))).length

/-- The per-location rolling-hour rate query. -/
def outboundCountLastHour (env : Env) (db : DB) : Nat :=
  (db.messages.filter (fun m =>
    m.direction == "OUTBOUND" && decide (env.now - 60 ≤ m.created_at))).length

/-- check_rate_limits of the gateway. -/
def check_rate_limits (env : Env) (db : DB) (lead_id : Int) (convo : Conversation)
    (allow_after_reply : Bool) : Except String Unit :=
  if 4 ≤ outboundCountOnHostDay env db lead_id then
    .error "rate limit: max 4 outbound per lead/day"
  else if 100 ≤ outboundCountLastHour env db then
    .error "rate limit: max 100 outbound per location/hour"
  else
    match convo.last_outbound_at with
    | none => .ok ()
    | some lastOut =>
      if env.now - lastOut < 120 then
        let replied :=
          match convo.last_inbound_at, allow_after_reply with
          | some lastIn, true => decide (lastOut < lastIn)
          | _, _ => false
        if replied then .ok ()
        else .error "rate limit: minimum 2 hours between outbound unless lead just replied"
      else .ok ()

/-- validate_outbound of the gateway (checks in source order). -/
def validate_outbound (env : Env) (db : DB) (req : OutboundRequest) : Except String Unit :=
  if req.automated && is_kill_switch_enabled db then
    .error "kill switch is enabled; automated outbound blocked"
  else
    match get_lead db req.lead_id with
    | .error e => .error e
    | .ok lead =>
      match get_conversation_by_lead_id db req.lead_id with
      | .error e => .error e
      | .ok convo =>
        if convo.id != req.conversation_id then
          .error "conversation_id does not match lead"
        else if !lead.consent && !req.allow_without_consent then
          .error "consent required before outbound"
        else if lead.opted_out && !req.allow_opted_out_once then
          .error "lead is opted out; outbound blocked"
        else if !req.ignore_business_hours && !is_business_open env env.now then
          .error "outside business hours; outbound blocked"
        else
          check_rate_limits env db req.lead_id convo req.allow_after_reply

/-- The duplicate-body query of the agent idempotency guard. -/
def duplicateOutboundCount (env : Env) (db : DB) (conversation_id : Int) (body : String) : Nat :=
  (db.messages.filter (fun m =>
    m.conversation_id == conversation_id && m.direction == "OUTBOUND" &&
    m.body == body && decide (env.now - 10 ≤ m.created_at))).length

/-- validate_agent_outbound: flag bans, the common validation, then the
10-minute duplicate-body guard. -/
def validate_agent_outbound (env : Env) (db : DB) (req : OutboundRequest) : Except String Unit :=
  if req.allow_without_consent then
    .error "agent outbound cannot bypass consent"
  else if req.allow_opted_out_once then
    .error "agent outbound cannot bypass opt-out suppression"
  else if req.ignore_business_hours then
    .error "agent outbound cannot ignore business hours"
  else
    match validate_outbound env db req with
    | .error e => .error e
    | .ok _ =>
      if 0 < duplicateOutboundCount env db req.conversation_id req.body then
        .error "idempotency block: duplicate outbound body for conversation within 10 minutes"
      else .ok ()

/-- The overlap query of validate_appointment: a booked appointment conflicts
iff `existing_start < candidate_end + 10` and `candidate_start < existing_end + 10`. -/
def appointmentConflicts (db : DB) (start_at end_at : Int) : Bool :=
  db.appointments.any (fun a =>
    a.status == "booked" && decide (a.start_at < end_at + 10) &&
    decide (start_at < a.end_at + 10))

/-- validate_appointment of the gateway. -/
def validate_appointment (db : DB) (req : AppointmentRequest) : Except String Unit :=
  match get_lead db req.lead_id with
  | .error e => .error e
  | .ok lead =>
    if lead.opted_out then
      .error "cannot book appointment for opted-out lead"
    else if req.end_at ≤ req.start_at then
      .error "appointment end must be after start"
    else if appointmentConflicts db req.start_at req.end_at then
      .error "selected appointment slot is no longer available"
    else .ok ()

/-- validate_schedule_job of the gateway (ignores the request). -/
def validate_schedule_job (db : DB) : Except String Unit :=
  if is_kill_switch_enabled db then
    .error "kill switch is enabled; job scheduling blocked"
  else .ok ()

/-- validate_opt_out of the gateway. -/
def validate_opt_out (db : DB) (req : OptOutRequest) : Except String Unit :=
  match get_lead db req.lead_id with
  | .error e => .error e
  | .ok _ => .ok ()

/-- insert_audit: append one audit_log row stamped at `env.now`. -/
def insert_audit (env : Env) (db : DB) (action_type target_type : String)
    (target_id : Option String) (request_blob : String) (success : Bool)
    (error_message : Option String) : DB :=
  { db with audit := db.audit ++
      [{ action_type := action_type, target_type := target_type,
         target_id := target_id, request_blob := request_blob,
         success := success, error_message := error_message,
         created_at := env.now }] }

/-- create_outbound_message: validate, insert the OUTBOUND row, stamp the
conversation and the lead, and audit the outcome either way. -/
def create_outbound_message (env : Env) (db : DB) (req : OutboundRequest) :
    Except String Int × DB :=
  match validate_outbound env db req with
  | .error e =>
    (.error e,
      insert_audit env db "create_outbound_message" "conversation"
        (some (toString req.conversation_id)) "" false (some e))
  | .ok _ =>
    let msg : Message :=
      { id := db.nextMessageId, conversation_id := req.conversation_id,
        direction := "OUTBOUND", body := req.body, status := "sent",
        created_at := env.now }
    let db1 := { db with messages := db.messages ++ [msg],
                         nextMessageId := db.nextMessageId + 1 }
    let convs := updBy (fun c => c.id) req.conversation_id
      (fun c => { c with last_outbound_at := some env.now }) db1.conversations
    let db2 := { db1 with conversations := convs }
    let lds := updBy (fun l => l.id) req.lead_id
      (fun l => { l with last_contact_at := some env.now,
                         status := some (l.status.getD "awaiting_yes") }) db2.leads
    let db3 := { db2 with leads := lds }
    (.ok msg.id,
      insert_audit env db3 "create_outbound_message" "conversation"
        (some (toString req.conversation_id)) "" true none)

/-- create_outbound_message_for_agent: the agent-specific validation runs
before create_outbound_message, and its rejection returns without any store
write (in particular without an audit row). -/
def create_outbound_message_for_agent (env : Env) (db : DB) (req : OutboundRequest) :
    Except String Int × DB :=
  match validate_agent_outbound env db req with
  | .error e => (.error e, db)
  | .ok _ => create_outbound_message env db req

/-- create_appointment: validate, insert the appointment with the requested
status, mark the lead booked, audit either way, return the new row id. -/
def create_appointment (env : Env) (db : DB) (req : AppointmentRequest) :
    Except String Int × DB :=
  match validate_appointment db req with
  | .error e =>
    (.error e,
      insert_audit env db "create_appointment" "lead"
        (some (toString req.lead_id)) "" false (some e))
  | .ok _ =>
    let appt : Appointment :=
      { id := db.nextAppointmentId, lead_id := req.lead_id,
        start_at := req.start_at, end_at := req.end_at,
        status := req.status, created_at := env.now }
    let db1 := { db with appointments := db.appointments ++ [appt],
                         nextAppointmentId := db.nextAppointmentId + 1 }
    let lds := updBy (fun l => l.id) req.lead_id
      (fun l => { l with status := some "booked", next_action_at := none }) db1.leads
    let db2 := { db1 with leads := lds }
    (.ok appt.id,
      insert_audit env db2 "create_appointment" "lead"
        (some (toString req.lead_id)) "" true none)

/-- set_opt_out: validate the lead exists, set the opted-out triple, audit. -/
def set_opt_out (env : Env) (db : DB) (req : OptOutRequest) : Except String Unit × DB :=
  match validate_opt_out db req with
  | .error e =>
    (.error e,
      insert_audit env db "set_opt_out" "lead" (some (toString req.lead_id))
        ("reason=" ++ req.reason) false (some e))
  | .ok _ =>
    let lds := updBy (fun l => l.id) req.lead_id
      (fun l => { l with opted_out := true, status := some "opted_out",
                         next_action_at := none }) db.leads
    let db1 := { db with leads := lds }
    (.ok (),
      insert_audit env db1 "set_opt_out" "lead" (some (toString req.lead_id))
        ("reason=" ++ req.reason) true none)

/-- schedule_job: validate the kill switch, insert a pending job, audit. -/
def schedule_job (env : Env) (db : DB) (req : ScheduleJobRequest) : Except String Int × DB :=
  match validate_schedule_job db with
  | .error e =>
    (.error e,
      insert_audit env db "schedule_job" "scheduled_job" none "" false (some e))
  | .ok _ =>
    let job : ScheduledJob :=
      { id := db.nextJobId, job_type := req.job_type, target_id := req.target_id,
        execute_at := req.execute_at, status := "pending", payload := req.payload,
        created_at := env.now }
    let db1 := { db with jobs := db.jobs ++ [job], nextJobId := db.nextJobId + 1 }
    (.ok job.id,
      insert_audit env db1 "schedule_job" "scheduled_job" (some (toString job.id))
        "" true none)

/-- cancel_jobs_on_kill_switch: turn every pending job cancelled, audit once
with the count. -/
def cancel_jobs_on_kill_switch (env : Env) (db : DB) : Nat × DB :=
  let changed := (db.jobs.filter (fun j => j.status == "pending")).length
  let js := db.jobs.map
    (fun j => if j.status == "pending" then { j with status := "cancelled" } else j)
  let db1 := { db with jobs := js }
  (changed,
    insert_audit env db1 "cancel_jobs_on_kill_switch" "scheduled_job" none
      "scope=all_pending" true none)

/-- set_kill_switch command: upsert the setting, audit, and on enable cancel
every pending job. -/
def set_kill_switch (env : Env) (db : DB) (enabled : Bool) : DB :=
  let db1 := { db with kill_switch := some (if enabled then "true" else "false") }
  let db2 := insert_audit env db1 "set_kill_switch" "settings" (some "kill_switch")
    "" true none
  if enabled then (cancel_jobs_on_kill_switch env db2).2 else db2

/-- local_display, abstracted: formatting is presentation-only so the model
keeps the injective local-minute reading. -/
def local_display (off t : Int) : String :=
  "local:" ++ toString (t + off)

/-- has_appointment_conflict of the slot generator (symmetric 10-minute
trailing buffer). -/
def has_appointment_conflict (candidate_start candidate_end : Int)
    (existing : List (Int × Int)) : Bool :=
  existing.any (fun p =>
    decide (candidate_start < p.2 + 10) && decide (p.1 < candidate_end + 10))

/-- The appointments the slot generator loads: booked rows with
`start_at ≥ now − 1 day`. -/
def loadBookedAppointments (env : Env) (db : DB) : List (Int × Int) :=
  (db.appointments.filter (fun a =>
    a.status == "booked" && decide (env.now - 1440 ≤ a.start_at))).map
    (fun a => (a.start_at, a.end_at))

/-- The cursor loop of generate_slot_choices inside one `(open, close)`
interval: 40-minute strides, 30-minute windows, stop at 2 accepted slots.
`fuel` only bounds the recursion; the `endM < cur + 30` guard is the loop
condition of the source. -/
def scanCursor (env : Env) (existing : List (Int × Int)) (fromT day endM : Int) :
    Nat → Int → List SlotChoice → List SlotChoice
  | 0, _, acc => acc
  | fuel + 1, cur, acc =>
    if 2 ≤ acc.length then acc
    else if endM < cur + 30 then acc
    else
      let startUtc := day * 1440 + cur - env.locOff
      let endUtc := startUtc + 30
      if startUtc ≤ fromT then
        scanCursor env existing fromT day endM fuel (cur + 40) acc
      else if has_appointment_conflict startUtc endUtc existing then
        scanCursor env existing fromT day endM fuel (cur + 40) acc
      else
        scanCursor env existing fromT day endM fuel (cur + 40) (acc ++ [⟨startUtc, endUtc⟩])

/-- The interval loop of generate_slot_choices over one day's ordered ranges. -/
def scanRanges (env : Env) (existing : List (Int × Int)) (fromT day : Int) :
    List (Int × Int) → List SlotChoice → List SlotChoice
  | [], acc => acc
  | r :: rest, acc =>
    let acc1 := scanCursor env existing fromT day r.2 ((r.2 - r.1).toNat + 1) r.1 acc
    if 2 ≤ acc1.length then acc1
    else scanRanges env existing fromT day rest acc1

/-- The day loop of generate_slot_choices: walk up to 14 calendar days,
stopping after 3 business days with any open interval (or at 2 slots). -/
def scanDays (env : Env) (existing : List (Int × Int)) (fromT startDay : Int) :
    Nat → Int → Nat → List SlotChoice → List SlotChoice
  | 0, _, _, acc => acc
  | fuel + 1, dayOffset, busSeen, acc =>
    if 3 ≤ busSeen then acc
    else
      let day := startDay + dayOffset
      let ranges := env.hours (weekdayOf day)
      if ranges.isEmpty then
        scanDays env existing fromT startDay fuel (dayOffset + 1) busSeen acc
      else
        let acc1 := scanRanges env existing fromT day ranges acc
        if 2 ≤ acc1.length then acc1
        else scanDays env existing fromT startDay fuel (dayOffset + 1) (busSeen + 1) acc1

/-- generate_slot_choices of the source. -/
def generate_slot_choices (env : Env) (db : DB) (fromT : Int) : List SlotChoice :=
  let existing := loadBookedAppointments env db
  let startDay := localDay env.locOff fromT
  scanDays env existing fromT startDay 14 0 0 []

/-- format_slot_offer of the source. -/
def format_slot_offer (env : Env) (slots : List SlotChoice) : Except String String :=
  match slots with
  | s1 :: s2 :: _ =>
    .ok ("Choose a time:\n1) " ++ local_display env.locOff s1.start_at ++
      "\n2) " ++ local_display env.locOff s2.start_at ++ "\n\nReply 1 or 2.")
  | _ => .error "expected at least 2 slots for offer"

/-- flag_needs_staff_attention: set the lead flag and audit with the reason. -/
def flag_needs_staff_attention (env : Env) (db : DB) (lead_id : Int) (reason : String) : DB :=
  let lds := updBy (fun l => l.id) lead_id
    (fun l => { l with needs_staff_attention := true }) db.leads
  let db1 := { db with leads := lds }
  insert_audit env db1 "flag_needs_staff_attention" "lead" (some (toString lead_id))
    ("reason=" ++ reason) true none

/-- The outbound request the inbound state machine sends in direct response to
an inbound text. -/
def stateMachineOutbound (lead : Lead) (convo : Conversation) (body : String) :
    OutboundRequest :=
  { lead_id := lead.id, conversation_id := convo.id, body := body,
    automated := false, allow_without_consent := false,
    allow_opted_out_once := false, allow_after_reply := true,
    ignore_business_hours := true }

/-- handle_time_choice_repair of the source: compute `attempts`, regenerate
slots; on fewer than 2 flag `repair_no_slots` and send the apology (without
persisting the incremented counter); otherwise flag `repair_attempts_exceeded`
when `attempts ≥ 2`, persist the new slots with `repair_attempts = attempts`,
and send the corrective offer. -/
def handle_time_choice_repair (env : Env) (db : DB) (lead : Lead) (convo : Conversation) :
    Except String Unit × DB :=
  let attempts := convo.repair_attempts + 1
  let offered := generate_slot_choices env db env.now
  if offered.length < 2 then
    let db1 := flag_needs_staff_attention env db lead.id "repair_no_slots"
    unitResult (create_outbound_message env db1 (stateMachineOutbound lead convo
      "I couldn't match that response to a slot. A staff member has been flagged to help."))
  else
    match format_slot_offer env offered with
    | .error e => (.error e, db)
    | .ok offerBody =>
      let body0 := "Please reply with 1 or 2 so I can book your session.\n\n" ++ offerBody
      let step :=
        if 2 ≤ attempts then
          (body0 ++ "\n\nI also flagged this conversation for staff follow-up.",
            flag_needs_staff_attention env db lead.id "repair_attempts_exceeded")
        else (body0, db)
      let convs := updBy (fun c => c.id) convo.id
        (fun c => { c with state := "awaiting_time_choice", offered_slots := offered,
                           repair_attempts := attempts }) step.2.conversations
      let db2 := { step.2 with conversations := convs }
      unitResult (create_outbound_message env db2 (stateMachineOutbound lead convo step.1))

/-- The automated greeting request of the `initial_follow_up` handler. -/
def initialFollowUpRequest (env : Env) (lead : Lead) (convo : Conversation)
    (lead_id : Int) : OutboundRequest :=
  { lead_id := lead_id, conversation_id := convo.id,
    body := "Hi " ++ lead.first_name.getD "there" ++ ", this is " ++ env.gym_name ++
      ". Reply YES to see two available intro session times.",
    automated := true, allow_without_consent := false,
    allow_opted_out_once := false, allow_after_reply := false,
    ignore_business_hours := false }

/-- The automated reminder request of the `appointment_reminder` handler. -/
def reminderRequest (env : Env) (lead : Lead) (convo : Conversation)
    (lead_id start_at : Int) : OutboundRequest :=
  { lead_id := lead_id, conversation_id := convo.id,
    body := "Reminder " ++ lead.first_name.getD "there" ++
      ": your gym appointment is at " ++ local_display env.locOff start_at ++
      ". Reply STOP to opt out.",
    automated := true, allow_without_consent := false,
    allow_opted_out_once := false, allow_after_reply := false,
    ignore_business_hours := false }

/-- execute_initial_follow_up of the source (the `initial_follow_up` handler). -/
def execute_initial_follow_up (env : Env) (db : DB) (lead_id : Int) :
    Except String Unit × DB :=
  match get_lead db lead_id with
  | .error e => (.error e, db)
  | .ok lead =>
    match get_conversation_by_lead_id db lead_id with
    | .error e => (.error e, db)
    | .ok convo =>
      match create_outbound_message env db (initialFollowUpRequest env lead convo lead_id) with
      | (.error e, db1) => (.error e, db1)
      | (.ok _, db1) =>
        let lds := updBy (fun l => l.id) lead_id
          (fun l => { l with next_action_at := none }) db1.leads
        (.ok (), { db1 with leads := lds })

/-- execute_appointment_reminder of the source (the `appointment_reminder`
handler). -/
def execute_appointment_reminder (env : Env) (db : DB)
    (lead_id _appointment_id start_at : Int) : Except String Unit × DB :=
  match get_lead db lead_id with
  | .error e => (.error e, db)
  | .ok lead =>
    match get_conversation_by_lead_id db lead_id with
    | .error e => (.error e, db)
    | .ok convo =>
      unitResult (create_outbound_message env db
        (reminderRequest env lead convo lead_id start_at))

/-- Insertion into a list sorted by execute_at (ORDER BY execute_at ASC). -/
def insertByExec (j : ScheduledJob) : List ScheduledJob → List ScheduledJob
  | [] => [j]
  | k :: ks => if j.execute_at ≤ k.execute_at then j :: k :: ks else k :: insertByExec j ks

/-- Stable sort by execute_at. -/
def sortByExec : List ScheduledJob → List ScheduledJob
  | [] => []
  | j :: js => insertByExec j (sortByExec js)

/-- The due-job snapshot of run_due_jobs: pending jobs with
`execute_at ≤ now`, ordered by execute_at. -/
def dueJobs (env : Env) (db : DB) : List ScheduledJob :=
  sortByExec (db.jobs.filter (fun j =>
    j.status == "pending" && decide (j.execute_at ≤ env.now)))

/-- UPDATE scheduled_jobs SET status = st WHERE id = jid. -/
def markJob (db : DB) (jid : Int) (st : String) : DB :=
  { db with jobs := updBy (fun j => j.id) jid (fun j => { j with status := st }) db.jobs }

/-- serde parse of InitialFollowUpPayload: both payload shapes expose
`lead_id` (extra JSON fields are ignored). -/
def payloadLeadId : JobPayload → Int
  | .initialFollowUp lid => lid
  | .reminder lid _ _ => lid

/-- The dispatch arm of run_due_jobs.  Outer `.error` is the `?` abort of a
failed `ReminderPayload` parse (it leaves the runner entirely); the inner
Except is the handler outcome `run_result`. -/
def dispatchJob (env : Env) (db : DB) (j : ScheduledJob) :
    Except String (Except String Unit × DB) :=
  if j.job_type == "initial_follow_up" then
    .ok (execute_initial_follow_up env db (payloadLeadId j.payload))
  else if j.job_type == "appointment_reminder" then
    match j.payload with
    | .reminder lid aid st => .ok (execute_appointment_reminder env db lid aid st)
    | .initialFollowUp _ => .error "json error: invalid ReminderPayload"
  else
    .ok (.error ("unknown job_type: " ++ j.job_type), db)

/-- The per-job loop of run_due_jobs: re-check the kill switch, dispatch, mark
completed or failed, audit failures, and keep the three counters. -/
def runJobsLoop (env : Env) : DB → List ScheduledJob → Int → Int → Int →
    Except String RunJobsResult × DB
  | db, [], processed, skipped, errors => (.ok ⟨processed, skipped, errors⟩, db)
  | db, j :: rest, processed, skipped, errors =>
    if is_kill_switch_enabled db then
      runJobsLoop env db rest processed (skipped + 1) errors
    else
      match dispatchJob env db j with
      | .error e => (.error e, db)
      | .ok (.ok _, db1) =>
        runJobsLoop env (markJob db1 j.id "completed") rest (processed + 1) skipped errors
      | .ok (.error err, db1) =>
        let db2 := markJob db1 j.id "failed"
        let db3 := insert_audit env db2 "run_scheduled_job" "scheduled_job"
          (some (toString j.id)) "" false (some err)
        runJobsLoop env db3 rest processed skipped (errors + 1)

/-- run_due_jobs of the source. -/
def run_due_jobs (env : Env) (db : DB) : Except String RunJobsResult × DB :=
  if is_kill_switch_enabled db then
    (.ok ⟨0,
      ((db.jobs.filter (fun j =>
        j.status == "pending" && decide (j.execute_at ≤ env.now))).length : Nat),
      0⟩, db)
  else
    runJobsLoop env db (dueJobs env db) 0 0 0

/-! Spec-side definitions: the outbound precondition list in the order §4.4
gives it, each check judged independently, combined by first-failure-wins.
These are compared against `validate_outbound` (claim C6). -/

/-- Check 1 of §4.4: the kill switch, only for automated requests. -/
def checkKillSwitchSpec (db : DB) (req : OutboundRequest) : Option String :=
  if req.automated && is_kill_switch_enabled db then
    some "kill switch is enabled; automated outbound blocked"
  else none

/-- Check 2 of §4.4: the lead exists and the conversation id matches. -/
def checkLeadConvoSpec (db : DB) (req : OutboundRequest) : Option String :=
  match db.leads.find? (fun l => l.id == req.lead_id) with
  | none => some "lead not found"
  | some _ =>
    match db.conversations.find? (fun c => c.lead_id == req.lead_id) with
    | none => some "conversation not found"
    | some convo =>
      if convo.id != req.conversation_id then some "conversation_id does not match lead"
      else none

/-- Check 3 of §4.4: consent unless allow_without_consent. -/
def checkConsentSpec (db : DB) (req : OutboundRequest) : Option String :=
  match db.leads.find? (fun l => l.id == req.lead_id) with
  | none => none
  | some lead =>
    if !lead.consent && !req.allow_without_consent then
      some "consent required before outbound"
    else none

/-- Check 4 of §4.4: opt-out unless allow_opted_out_once. -/
def checkOptOutSpec (db : DB) (req : OutboundRequest) : Option String :=
  match db.leads.find? (fun l => l.id == req.lead_id) with
  | none => none
  | some lead =>
    if lead.opted_out && !req.allow_opted_out_once then
      some "lead is opted out; outbound blocked"
    else none

/-- Check 5 of §4.4: business hours unless ignore_business_hours. -/
def checkHoursSpec (env : Env) (req : OutboundRequest) : Option String :=
  if !req.ignore_business_hours && !is_business_open env env.now then
    some "outside business hours; outbound blocked"
  else none

/-- Check 6 of §4.4: the three rate limits. -/
def checkRateSpec (env : Env) (db : DB) (req : OutboundRequest) : Option String :=
  match db.conversations.find? (fun c => c.lead_id == req.lead_id) with
  | none => none
  | some convo =>
    match check_rate_limits env db req.lead_id convo req.allow_after_reply with
    | .error e => some e
    | .ok _ => none

/-- First failing check of the §4.4 list, in the listed order. -/
def outboundFirstFailure (env : Env) (db : DB) (req : OutboundRequest) : Option String :=
  ([checkKillSwitchSpec db req, checkLeadConvoSpec db req, checkConsentSpec db req,
    checkOptOutSpec db req, checkHoursSpec env req, checkRateSpec env db req]).findSome? id

/-- Turn a first-failure reason into the validation result. -/
def reasonResult (r : Option String) : Except String Unit :=
  match r with
  | some m => .error m
  | none => .ok ()

/-- The acceptance side of claim C3's iff: the lead exists, is not opted out,
the interval is non-degenerate and no booked appointment conflicts. -/
def appointmentAllowedSpec (db : DB) (req : AppointmentRequest) : Bool :=
  match db.leads.find? (fun l => l.id == req.lead_id) with
  | none => false
  | some lead =>
    !lead.opted_out && decide (req.start_at < req.end_at) &&
      !appointmentConflicts db req.start_at req.end_at

/-! Observation helpers over the store. -/

/-- The stored repair_attempts of the conversation row `cid`. -/
def convRepairAttempts (db : DB) (cid : Int) : Option Int :=
  (db.conversations.find? (fun c => c.id == cid)).map (fun c => c.repair_attempts)

/-- Number of audit rows with the given action_type. -/
def auditActionCount (db : DB) (a : String) : Nat :=
  (db.audit.filter (fun e => e.action_type == a)).length

/-- Number of flag_needs_staff_attention audit rows carrying the given reason. -/
def flagReasonCount (db : DB) (reason : String) : Nat :=
  (db.audit.filter (fun e =>
    e.action_type == "flag_needs_staff_attention" &&
    e.request_blob == ("reason=" ++ reason))).length

/-- The stored status of the scheduled job `jid`. -/
def jobStatusOf (db : DB) (jid : Int) : Option String :=
  (db.jobs.find? (fun j => j.id == jid)).map (fun j => j.status)

/-- A job whose payload parses for its job_type (an appointment_reminder job
needs a ReminderPayload; everything else parses). -/
def jobWellFormed (j : ScheduledJob) : Bool :=
  j.job_type != "appointment_reminder" ||
    (match j.payload with
     | .reminder _ _ _ => true
     | .initialFollowUp _ => false)

/-- What claim C7 asserts of every returned slot: a 30-minute window whose
cursor lies on a 40-minute stride from some interval's open time with
cursor + 30 ≤ close, starting strictly after `fromT`, conflicting with no
loaded booked appointment. -/
def SlotValid (env : Env) (existing : List (Int × Int)) (fromT : Int) (s : SlotChoice) : Prop :=
  (∃ day : Int, ∃ r ∈ env.hours (weekdayOf day), ∃ k : Nat,
      s.start_at = day * 1440 + (r.1 + 40 * (k : Int)) - env.locOff ∧
      r.1 + 40 * (k : Int) + 30 ≤ r.2) ∧
  s.end_at = s.start_at + 30 ∧ fromT < s.start_at ∧
  has_appointment_conflict s.start_at s.end_at existing = false

/-! Concrete fixtures used by counterexamples and witnesses. -/

/-- An always-open single-offset environment. -/
def envA : Env :=
  { now := 20000, hostOff := 0, locOff := 0, hours := fun _ => [(0, 1440)],
    gym_name := "Demo Gym Downtown" }

/-- An opted-out lead that still has consent (set_opt_out does not clear
consent). -/
def leadOpted : Lead :=
  { id := 1, phone_e164 := "+15550001111", first_name := some "Pat",
    last_name := none, consent := true, opted_out := true,
    status := some "opted_out", needs_staff_attention := false,
    last_contact_at := none, next_action_at := none }

def convo1 : Conversation :=
  { id := 1, lead_id := 1, state := "awaiting_yes", offered_slots := [],
    last_inbound_at := none, last_outbound_at := none, repair_attempts := 0 }

def dbOpt : DB :=
  { leads := [leadOpted], conversations := [convo1], messages := [],
    appointments := [], jobs := [], audit := [], kill_switch := some "false",
    nextMessageId := 1, nextAppointmentId := 1, nextJobId := 1 }

/-- The stop-confirmation shape with only allow_opted_out_once set. -/
def reqOnce : OutboundRequest :=
  { lead_id := 1, conversation_id := 1,
    body := "You are unsubscribed and will receive no more automated messages.",
    automated := false, allow_without_consent := false,
    allow_opted_out_once := true, allow_after_reply := true,
    ignore_business_hours := true }

def reqNoFlag : OutboundRequest := { reqOnce with allow_opted_out_once := false }

/-- Machine timezone UTC, location timezone UTC-5 (New York in winter). -/
def envC5 : Env :=
  { now := 1640, hostOff := 0, locOff := -300, hours := fun _ => [(0, 1440)],
    gym_name := "G" }

def leadC5 : Lead := { leadOpted with opted_out := false, status := some "awaiting_yes" }

def convoC5 : Conversation := { convo1 with last_outbound_at := some 1003 }

def msgsC5 : List Message :=
  [{ id := 1, conversation_id := 1, direction := "OUTBOUND", body := "a",
     status := "sent", created_at := 1000 },
   { id := 2, conversation_id := 1, direction := "OUTBOUND", body := "b",
     status := "sent", created_at := 1001 },
   { id := 3, conversation_id := 1, direction := "OUTBOUND", body := "c",
     status := "sent", created_at := 1002 },
   { id := 4, conversation_id := 1, direction := "OUTBOUND", body := "d",
     status := "sent", created_at := 1003 }]

def dbC5 : DB :=
  { dbOpt with leads := [leadC5], conversations := [convoC5],
               messages := msgsC5, nextMessageId := 5 }

def reqC5 : OutboundRequest :=
  { reqOnce with body := "Hi", allow_opted_out_once := false,
                 allow_after_reply := false, ignore_business_hours := false }

/-- Same store seen a few hours earlier, when the four messages still fall on
the machine-local current day. -/
def envC5b : Env := { envC5 with now := 1100 }

def envS : Env :=
  { now := 0, hostOff := 0, locOff := 0, hours := fun _ => [(540, 1020)],
    gym_name := "G" }

def dbEmpty : DB :=
  { dbOpt with leads := [], conversations := [], kill_switch := none }

/-- No open interval on any weekday: the slot generator finds nothing. -/
def envNoH : Env :=
  { now := 20000, hostOff := 0, locOff := 0, hours := fun _ => [], gym_name := "G" }

def leadR : Lead := { leadOpted with opted_out := false, status := some "awaiting_time_choice" }

def convoR : Conversation := { convo1 with state := "awaiting_time_choice", repair_attempts := 1 }

def dbR : DB := { dbOpt with leads := [leadR], conversations := [convoR] }

def dbR2 : DB := { dbR with kill_switch := none }

def job1 : ScheduledJob :=
  { id := 1, job_type := "initial_follow_up", target_id := some 1, execute_at := 100,
    status := "pending", payload := .initialFollowUp 1, created_at := 0 }

def job2 : ScheduledJob :=
  { id := 2, job_type := "bogus", target_id := none, execute_at := 50,
    status := "pending", payload := .initialFollowUp 1, created_at := 0 }

def dbJ : DB := { dbR2 with jobs := [job1, job2] }

def dbKill : DB := { dbJ with kill_switch := some "true" }

def dbOne : DB := { dbJ with kill_switch := some "1" }

def reqAuto : OutboundRequest := { reqC5 with automated := true }

def reqJob : ScheduleJobRequest :=
  { job_type := "initial_follow_up", target_id := some 1, execute_at := 40000,
    payload := .initialFollowUp 1 }

def dbAg : DB := { dbOpt with leads := [leadC5] }

def reqAg : OutboundRequest := { reqC5 with allow_without_consent := true }

def apptRow : Appointment :=
  { id := 1, lead_id := 1, start_at := 1000, end_at := 1030,
    status := "booked", created_at := 0 }

def dbAppt : DB :=
  { dbOpt with leads := [leadC5], appointments := [apptRow],
               nextAppointmentId := 2 }

def reqAppt : AppointmentRequest :=
  { lead_id := 1, start_at := 1040, end_at := 1070, status := "booked" }

/-! Helper lemmas. -/

theorem insert_audit_messages (env : Env) (db : DB) (a tt : String) (ti : Option String)
    (rb : String) (s : Bool) (em : Option String) :
    (insert_audit env db a tt ti rb s em).messages = db.messages := rfl

theorem insert_audit_jobs (env : Env) (db : DB) (a tt : String) (ti : Option String)
    (rb : String) (s : Bool) (em : Option String) :
    (insert_audit env db a tt ti rb s em).jobs = db.jobs := rfl

theorem insert_audit_kill (env : Env) (db : DB) (a tt : String) (ti : Option String)
    (rb : String) (s : Bool) (em : Option String) :
    (insert_audit env db a tt ti rb s em).kill_switch = db.kill_switch := rfl

theorem insert_audit_conversations (env : Env) (db : DB) (a tt : String) (ti : Option String)
    (rb : String) (s : Bool) (em : Option String) :
    (insert_audit env db a tt ti rb s em).conversations = db.conversations := rfl

theorem auditActionCount_insert (env : Env) (db : DB) (a tt : String) (ti : Option String)
    (rb : String) (s : Bool) (em : Option String) (q : String) :
    auditActionCount (insert_audit env db a tt ti rb s em) q =
      auditActionCount db q + (if a == q then 1 else 0) := by
  simp only [auditActionCount, insert_audit, List.filter_append, List.length_append]
  by_cases h : a == q <;> simp [List.filter, h]

theorem flagReasonCount_insert (env : Env) (db : DB) (a tt : String) (ti : Option String)
    (rb : String) (s : Bool) (em : Option String) (r : String) :
    flagReasonCount (insert_audit env db a tt ti rb s em) r =
      flagReasonCount db r +
        (if a == "flag_needs_staff_attention" && rb == ("reason=" ++ r) then 1 else 0) := by
  simp only [flagReasonCount, insert_audit, List.filter_append, List.length_append]
  cases h : (a == "flag_needs_staff_attention" && rb == ("reason=" ++ r)) <;>
    simp [List.filter, h]

theorem find?_map_comm {α : Type} (f : α → α) (p : α → Bool)
    (hp : ∀ a, p (f a) = p a) (l : List α) :
    List.find? p (l.map f) = Option.map f (List.find? p l) := by
  induction l with
  | nil => simp
  | cons x xs ih =>
    simp only [List.map_cons, List.find?_cons, hp]
    cases hx : p x <;> simp [ih]

theorem any_map_comm {α : Type} (f : α → α) (p : α → Bool)
    (hp : ∀ a, p (f a) = p a) (l : List α) :
    (l.map f).any p = l.any p := by
  induction l with
  | nil => rfl
  | cons x xs ih => simp only [List.map_cons, List.any_cons, hp, ih]

theorem jobStatusOf_markJob_self (db : DB) (jid : Int) (st : String)
    (hfound : (db.jobs.find? (fun j => j.id == jid)).isSome = true) :
    jobStatusOf (markJob db jid st) jid = some st := by
  unfold jobStatusOf markJob updBy
  rw [find?_map_comm (fun j => if j.id == jid then { j with status := st } else j)
    (fun j => j.id == jid)
    (by intro a; by_cases h : (a.id == jid) = true <;> simp [h]) db.jobs]
  cases hf : db.jobs.find? (fun j => j.id == jid) with
  | none => rw [hf] at hfound; simp at hfound
  | some j =>
    have hp := List.find?_some hf
    have hj : j.id = jid := by simpa using hp
    simp [hj]

theorem jobStatusOf_markJob_other (db : DB) (jid q : Int) (st : String) (hne : q ≠ jid) :
    jobStatusOf (markJob db jid st) q = jobStatusOf db q := by
  unfold jobStatusOf markJob updBy
  rw [find?_map_comm (fun j => if j.id == jid then { j with status := st } else j)
    (fun j => j.id == q)
    (by intro a; by_cases h : (a.id == jid) = true <;> simp [h]) db.jobs]
  cases hf : db.jobs.find? (fun j => j.id == q) with
  | none => rfl
  | some j =>
    have hp := List.find?_some hf
    have hj : j.id = q := by simpa using hp
    have hjj : ¬ j.id = jid := by rw [hj]; exact hne
    simp [hjj]

theorem jobStatusOf_insert_audit (env : Env) (db : DB) (a tt : String) (ti : Option String)
    (rb : String) (s : Bool) (em : Option String) (q : Int) :
    jobStatusOf (insert_audit env db a tt ti rb s em) q = jobStatusOf db q := rfl

theorem create_outbound_message_jobs (env : Env) (db : DB) (req : OutboundRequest) :
    (create_outbound_message env db req).2.jobs = db.jobs := by
  unfold create_outbound_message
  cases validate_outbound env db req <;> rfl

theorem create_outbound_message_kill (env : Env) (db : DB) (req : OutboundRequest) :
    (create_outbound_message env db req).2.kill_switch = db.kill_switch := by
  unfold create_outbound_message
  cases validate_outbound env db req <;> rfl

theorem create_outbound_message_messages_error (env : Env) (db : DB) (req : OutboundRequest)
    (e : String) (h : validate_outbound env db req = .error e) :
    (create_outbound_message env db req).2.messages = db.messages := by
  unfold create_outbound_message
  rw [h]
  rfl

theorem create_outbound_message_error_of_validate (env : Env) (db : DB) (req : OutboundRequest)
    (e : String) (h : validate_outbound env db req = .error e) :
    (create_outbound_message env db req).1 = .error e := by
  unfold create_outbound_message
  rw [h]

theorem create_outbound_message_audit_count (env : Env) (db : DB) (req : OutboundRequest)
    (q : String) :
    auditActionCount (create_outbound_message env db req).2 q =
      auditActionCount db q + (if ("create_outbound_message" == q) then 1 else 0) := by
  unfold create_outbound_message
  cases validate_outbound env db req with
  | error e => rw [auditActionCount_insert]
  | ok u => rw [auditActionCount_insert]; rfl

theorem create_outbound_message_flag_count (env : Env) (db : DB) (req : OutboundRequest)
    (r : String) :
    flagReasonCount (create_outbound_message env db req).2 r = flagReasonCount db r := by
  unfold create_outbound_message
  cases validate_outbound env db req with
  | error e =>
    rw [flagReasonCount_insert]
    simp
  | ok u =>
    rw [flagReasonCount_insert]
    have hne : (("create_outbound_message" : String) == "flag_needs_staff_attention") = false := by
      decide
    simp only [hne, Bool.false_and, if_false, Nat.add_zero]
    rfl

theorem repair_map_comm (t cid k : Int) (l : List Conversation) :
    Option.map (fun c => c.repair_attempts)
      (List.find? (fun c => c.id == cid)
        (l.map (fun c => if c.id == k then { c with last_outbound_at := some t } else c))) =
    Option.map (fun c => c.repair_attempts) (List.find? (fun c => c.id == cid) l) := by
  rw [find?_map_comm (fun c => if c.id == k then { c with last_outbound_at := some t } else c)
    (fun c => c.id == cid)
    (by intro a; by_cases h : (a.id == k) = true <;> simp [h]) l]
  cases hf : List.find? (fun c => c.id == cid) l with
  | none => rfl
  | some c => by_cases hc : c.id = k <;> simp [hc]

theorem convRepairAttempts_create_outbound (env : Env) (db : DB) (req : OutboundRequest)
    (cid : Int) :
    convRepairAttempts (create_outbound_message env db req).2 cid =
      convRepairAttempts db cid := by
  unfold create_outbound_message
  cases validate_outbound env db req with
  | error e => rfl
  | ok u => exact repair_map_comm env.now cid req.conversation_id db.conversations


theorem create_outbound_error_frame (env : Env) (db : DB) (req : OutboundRequest)
    (h : exceptIsOk (validate_outbound env db req) = false) :
    exceptIsOk (create_outbound_message env db req).1 = false ∧
    (create_outbound_message env db req).2.messages = db.messages := by
  cases hv : validate_outbound env db req with
  | ok u => rw [hv] at h; simp [exceptIsOk] at h
  | error e =>
    refine ⟨?_, create_outbound_message_messages_error env db req e hv⟩
    rw [create_outbound_message_error_of_validate env db req e hv]
    rfl

/-- C1 (counterexample): the spec's §8.2 demands both allow_without_consent and
allow_opted_out_once for an outbound to an opted-out lead, but the code's
consent gate is satisfied by the lead's own stored consent, so a request with
only allow_opted_out_once set is accepted and the OUTBOUND row is inserted. -/
theorem optout_both_flags_counterexample :
    leadOpted.opted_out = true ∧
    reqOnce.allow_without_consent = false ∧
    reqOnce.allow_opted_out_once = true ∧
    (create_outbound_message envA dbOpt reqOnce).1 = .ok 1 ∧
    (create_outbound_message envA dbOpt reqOnce).2.messages =
      [{ id := 1, conversation_id := 1, direction := "OUTBOUND",
         body := "You are unsubscribed and will receive no more automated messages.",
         status := "sent", created_at := 20000 }] := by
  refine ⟨rfl, rfl, rfl, ?_, ?_⟩ <;> decide

/-- C1 (amended): opt-out is absorbing up to the single allow_opted_out_once
override — create_outbound inserts no OUTBOUND message for an opted-out lead
unless the request sets allow_opted_out_once (allow_without_consent is not
additionally required when the lead's stored consent is still true). -/
theorem optout_absorbing_amended (env : Env) (db : DB) (req : OutboundRequest) (l : Lead)
    (hfind : db.leads.find? (fun x => x.id == req.lead_id) = some l)
    (hopt : l.opted_out = true)
    (hflag : req.allow_opted_out_once = false) :
    exceptIsOk (create_outbound_message env db req).1 = false ∧
    (create_outbound_message env db req).2.messages = db.messages := by
  apply create_outbound_error_frame
  unfold validate_outbound get_lead get_conversation_by_lead_id
  rw [hfind]
  cases hk : (req.automated && is_kill_switch_enabled db) with
  | true => rfl
  | false =>
    cases hc : db.conversations.find? (fun c => c.lead_id == req.lead_id) with
    | none => rfl
    | some convo =>
      by_cases hcid : (convo.id != req.conversation_id) = true
      · simp [hcid, exceptIsOk]
      · by_cases hcons : (!l.consent && !req.allow_without_consent) = true
        · simp [hcid, hcons, exceptIsOk]
        · have hoptc : (l.opted_out && !req.allow_opted_out_once) = true := by
            rw [hopt, hflag]; rfl
          simp [hcid, hcons, hoptc, exceptIsOk]

theorem optout_absorbing_amended_witness :
    exceptIsOk (create_outbound_message envA dbOpt reqNoFlag).1 = false ∧
    (create_outbound_message envA dbOpt reqNoFlag).2.messages = dbOpt.messages :=
  optout_absorbing_amended envA dbOpt reqNoFlag leadOpted (by decide) (by decide) (by decide)

/-- C2: while the kill_switch setting is "true", schedule_job rejects and
leaves the job table unchanged, create_outbound rejects every automated
request and records no message, and set_kill_switch(true) turns every
pending job cancelled. -/
theorem kill_switch_halts_automation :
    (∀ (env : Env) (db : DB) (req : ScheduleJobRequest), db.kill_switch = some "true" →
      (schedule_job env db req).1 = .error "kill switch is enabled; job scheduling blocked" ∧
      (schedule_job env db req).2.jobs = db.jobs) ∧
    (∀ (env : Env) (db : DB) (req : OutboundRequest), db.kill_switch = some "true" →
      req.automated = true →
      (create_outbound_message env db req).1 =
        .error "kill switch is enabled; automated outbound blocked" ∧
      (create_outbound_message env db req).2.messages = db.messages) ∧
    (∀ (env : Env) (db : DB), (set_kill_switch env db true).jobs =
      db.jobs.map (fun j =>
        if j.status == "pending" then { j with status := "cancelled" } else j)) := by
  refine ⟨?_, ?_, ?_⟩
  · intro env db req hks
    have hv : validate_schedule_job db =
        .error "kill switch is enabled; job scheduling blocked" := by
      unfold validate_schedule_job is_kill_switch_enabled
      rw [hks]
      rfl
    unfold schedule_job
    rw [hv]
    exact ⟨rfl, rfl⟩
  · intro env db req hks hauto
    have hv : validate_outbound env db req =
        .error "kill switch is enabled; automated outbound blocked" := by
      have hcond : (req.automated && is_kill_switch_enabled db) = true := by
        rw [hauto]
        unfold is_kill_switch_enabled
        rw [hks]
        rfl
      unfold validate_outbound
      rw [hcond]
      rfl
    exact ⟨create_outbound_message_error_of_validate env db req _ hv,
      create_outbound_message_messages_error env db req _ hv⟩
  · intro env db
    rfl

theorem kill_switch_halts_automation_witness :
    ((schedule_job envA dbKill reqJob).1 =
        .error "kill switch is enabled; job scheduling blocked" ∧
      (schedule_job envA dbKill reqJob).2.jobs = dbKill.jobs) ∧
    ((create_outbound_message envA dbKill reqAuto).1 =
        .error "kill switch is enabled; automated outbound blocked" ∧
      (create_outbound_message envA dbKill reqAuto).2.messages = dbKill.messages) ∧
    ((set_kill_switch envA dbJ true).jobs =
      dbJ.jobs.map (fun j =>
        if j.status == "pending" then { j with status := "cancelled" } else j)) :=
  ⟨kill_switch_halts_automation.1 envA dbKill reqJob rfl,
   kill_switch_halts_automation.2.1 envA dbKill reqAuto rfl rfl,
   kill_switch_halts_automation.2.2 envA dbJ⟩

/-- C4 (code_bug evaluation): an agent send_outbound rejected by the
agent-specific checks returns without any store write — in particular it
appends no AuditEntry, where the spec demands exactly one with
success = false. -/
theorem agent_reject_no_audit :
    reqAg.allow_without_consent = true ∧
    exceptIsOk (create_outbound_message_for_agent envA dbAg reqAg).1 = false ∧
    (create_outbound_message_for_agent envA dbAg reqAg).2 = dbAg := by
  refine ⟨rfl, ?_, ?_⟩ <;> decide

/-- C10: the kill switch is read as enabled iff the stored value is exactly
"true" or exactly "1"; the off-spec value "1" therefore engages the automated
outbound gate, the job-scheduling gate, the run_due_jobs skip path and
get_kill_switch. -/
theorem kill_switch_value_semantics :
    (∀ db : DB, is_kill_switch_enabled db = true ↔
      (db.kill_switch = some "true" ∨ db.kill_switch = some "1")) ∧
    (∀ (env : Env) (db : DB) (req : OutboundRequest), db.kill_switch = some "1" →
      req.automated = true →
      validate_outbound env db req =
        .error "kill switch is enabled; automated outbound blocked") ∧
    (∀ db : DB, db.kill_switch = some "1" →
      validate_schedule_job db = .error "kill switch is enabled; job scheduling blocked") ∧
    (∀ (env : Env) (db : DB), db.kill_switch = some "1" →
      run_due_jobs env db = (.ok ⟨0, ((db.jobs.filter (fun j =>
        j.status == "pending" && decide (j.execute_at ≤ env.now))).length : Nat), 0⟩, db)) ∧
    (∀ db : DB, db.kill_switch = some "1" → get_kill_switch db = true) := by
  refine ⟨?_, ?_, ?_, ?_, ?_⟩
  · intro db
    unfold is_kill_switch_enabled
    simp
  · intro env db req hks hauto
    have hcond : (req.automated && is_kill_switch_enabled db) = true := by
      rw [hauto]
      unfold is_kill_switch_enabled
      rw [hks]
      rfl
    unfold validate_outbound
    rw [hcond]
    rfl
  · intro db hks
    unfold validate_schedule_job is_kill_switch_enabled
    rw [hks]
    rfl
  · intro env db hks
    have hcond : is_kill_switch_enabled db = true := by
      unfold is_kill_switch_enabled
      rw [hks]
      rfl
    unfold run_due_jobs
    rw [hcond]
    rfl
  · intro db hks
    unfold get_kill_switch is_kill_switch_enabled
    rw [hks]
    rfl

theorem kill_switch_value_semantics_witness :
    is_kill_switch_enabled dbOne = true ∧
    validate_outbound envA dbOne reqAuto =
      .error "kill switch is enabled; automated outbound blocked" ∧
    validate_schedule_job dbOne =
      .error "kill switch is enabled; job scheduling blocked" ∧
    run_due_jobs envA dbOne = (.ok ⟨0, 2, 0⟩, dbOne) ∧
    get_kill_switch dbOne = true :=
  ⟨(kill_switch_value_semantics.1 dbOne).2 (Or.inr rfl),
   kill_switch_value_semantics.2.1 envA dbOne reqAuto rfl rfl,
   kill_switch_value_semantics.2.2.1 dbOne rfl,
   by
    have h := kill_switch_value_semantics.2.2.2.1 envA dbOne rfl
    rw [h]
    decide,
   kill_switch_value_semantics.2.2.2.2 dbOne rfl⟩


theorem validate_outbound_ok_rate (env : Env) (db : DB) (req : OutboundRequest) (u : Unit)
    (h : validate_outbound env db req = .ok u) :
    outboundCountOnHostDay env db req.lead_id < 4 := by
  unfold validate_outbound check_rate_limits at h
  repeat' first
  | exact Except.noConfusion h
  | split at h
  all_goals omega

/-- C5 (counterexample): the Rust per-lead/day rate query counts by SQLite's
`'localtime'` (the machine timezone), not by the location's timezone.  With
machine timezone UTC and location UTC-5, a lead with 4 OUTBOUND messages on
the current location-local day still gets a 5th accepted, because those
messages fall on the previous machine-local day. -/
theorem per_day_location_counterexample :
    outboundCountOnLocationDay envC5 dbC5 1 = 4 ∧
    reqC5.lead_id = 1 ∧
    (create_outbound_message envC5 dbC5 reqC5).1 = .ok 5 ∧
    (create_outbound_message envC5 dbC5 reqC5).2.messages.length = 5 := by
  refine ⟨by decide, rfl, by decide, by decide⟩

/-- C5 (amended): the per-lead daily cap is enforced over the machine-local
(SQLite `'localtime'`) date of created_at: whenever the lead already has 4
OUTBOUND messages on the current machine-local day the request is rejected
and no message is inserted; conversely every accepted request saw fewer
than 4. -/
theorem per_day_rate_limit_amended (env : Env) (db : DB) (req : OutboundRequest) :
    (4 ≤ outboundCountOnHostDay env db req.lead_id →
      exceptIsOk (create_outbound_message env db req).1 = false ∧
      (create_outbound_message env db req).2.messages = db.messages) ∧
    (exceptIsOk (create_outbound_message env db req).1 = true →
      outboundCountOnHostDay env db req.lead_id < 4) := by
  constructor
  · intro h4
    apply create_outbound_error_frame
    cases hv : validate_outbound env db req with
    | error e => rfl
    | ok u => exact absurd (validate_outbound_ok_rate env db req u hv) (by omega)
  · intro hok
    cases hv : validate_outbound env db req with
    | error e =>
      rw [create_outbound_message_error_of_validate env db req e hv] at hok
      exact absurd hok (by simp [exceptIsOk])
    | ok u => exact validate_outbound_ok_rate env db req u hv

theorem per_day_rate_limit_amended_witness :
    4 ≤ outboundCountOnHostDay envC5b dbC5 1 ∧
    exceptIsOk (create_outbound_message envC5b dbC5 reqC5).1 = false ∧
    (create_outbound_message envC5b dbC5 reqC5).2.messages = dbC5.messages ∧
    exceptIsOk (create_outbound_message envC5 dbC5 reqC5).1 = true ∧
    outboundCountOnHostDay envC5 dbC5 1 < 4 :=
  ⟨by decide,
   ((per_day_rate_limit_amended envC5b dbC5 reqC5).1 (by decide)).1,
   ((per_day_rate_limit_amended envC5b dbC5 reqC5).1 (by decide)).2,
   by decide,
   (per_day_rate_limit_amended envC5 dbC5 reqC5).2 (by decide)⟩

theorem validate_appointment_iff (db : DB) (req : AppointmentRequest) :
    exceptIsOk (validate_appointment db req) = appointmentAllowedSpec db req := by
  unfold validate_appointment appointmentAllowedSpec get_lead
  cases hl : db.leads.find? (fun l => l.id == req.lead_id) with
  | none => rfl
  | some lead =>
    by_cases hopt : lead.opted_out = true
    · simp [hopt, exceptIsOk]
    · have hopt2 : lead.opted_out = false := by
        revert hopt; cases lead.opted_out <;> simp
      by_cases hle : req.end_at ≤ req.start_at
      · have hnlt : ¬ (req.start_at < req.end_at) := by omega
        simp [hopt2, hle, hnlt, exceptIsOk]
      · have hlt : req.start_at < req.end_at := by omega
        by_cases hcf : appointmentConflicts db req.start_at req.end_at = true
        · simp [hopt2, hle, hlt, hcf, exceptIsOk]
        · have hcf2 : appointmentConflicts db req.start_at req.end_at = false := by
            revert hcf; cases appointmentConflicts db req.start_at req.end_at <;> simp
          simp [hopt2, hle, hlt, hcf2, exceptIsOk]

/-- C3: create_appointment accepts exactly when the lead exists, is not opted
out, start < end, and no booked appointment conflicts under the symmetric
10-minute buffer (candidate_start < existing_end + 10 and
existing_start < candidate_end + 10); on pass it appends the Appointment with
the requested status and the new row id, and sets the lead booked with
next_action_at cleared. -/
theorem create_appointment_spec (env : Env) (db : DB) (req : AppointmentRequest) :
    (exceptIsOk (create_appointment env db req).1 = appointmentAllowedSpec db req) ∧
    (appointmentAllowedSpec db req = true →
      (create_appointment env db req).1 = .ok db.nextAppointmentId ∧
      (create_appointment env db req).2.appointments = db.appointments ++
        [{ id := db.nextAppointmentId, lead_id := req.lead_id, start_at := req.start_at,
           end_at := req.end_at, status := req.status, created_at := env.now }] ∧
      (create_appointment env db req).2.leads =
        updBy (fun l => l.id) req.lead_id
          (fun l => { l with status := some "booked", next_action_at := none }) db.leads) := by
  constructor
  · rw [← validate_appointment_iff db req]
    unfold create_appointment
    cases hv : validate_appointment db req <;> rfl
  · intro hallow
    have hv2 : exceptIsOk (validate_appointment db req) = true := by
      rw [validate_appointment_iff db req, hallow]
    cases hv : validate_appointment db req with
    | error e => rw [hv] at hv2; exact absurd hv2 (by simp [exceptIsOk])
    | ok u =>
      unfold create_appointment
      rw [hv]
      exact ⟨rfl, rfl, rfl⟩

theorem create_appointment_spec_witness :
    appointmentAllowedSpec dbAppt reqAppt = true ∧
    (create_appointment envA dbAppt reqAppt).1 = .ok 2 ∧
    (create_appointment envA dbAppt reqAppt).2.appointments =
      dbAppt.appointments ++
        [{ id := 2, lead_id := 1, start_at := 1040, end_at := 1070,
           status := "booked", created_at := 20000 }] :=
  ⟨by decide,
   ((create_appointment_spec envA dbAppt reqAppt).2 (by decide)).1,
   ((create_appointment_spec envA dbAppt reqAppt).2 (by decide)).2.1⟩


/-- C6: validate_outbound returns exactly the first failing check of the §4.4
list — kill switch (automated only), lead and conversation existence/match,
consent, opt-out, business hours, rate limits — evaluated in that order. -/
theorem outbound_first_failure_wins (env : Env) (db : DB) (req : OutboundRequest) :
    validate_outbound env db req = reasonResult (outboundFirstFailure env db req) := by
  unfold outboundFirstFailure validate_outbound
  unfold checkKillSwitchSpec checkLeadConvoSpec checkConsentSpec checkOptOutSpec
  unfold checkHoursSpec checkRateSpec
  unfold get_lead get_conversation_by_lead_id
  simp only [List.findSome?, id_eq]
  cases hk : (req.automated && is_kill_switch_enabled db) with
  | true => simp [reasonResult]
  | false =>
    cases hl : db.leads.find? (fun l => l.id == req.lead_id) with
    | none => simp [reasonResult]
    | some lead =>
      cases hc : db.conversations.find? (fun c => c.lead_id == req.lead_id) with
      | none => simp [reasonResult]
      | some convo =>
        by_cases h1 : (convo.id != req.conversation_id) = true
        · simp [h1, reasonResult]
        · by_cases h2 : (!lead.consent && !req.allow_without_consent) = true
          · simp [h1, h2, reasonResult]
          · by_cases h3 : (lead.opted_out && !req.allow_opted_out_once) = true
            · simp [h1, h2, h3, reasonResult]
            · by_cases h4 : (!req.ignore_business_hours && !is_business_open env env.now) = true
              · simp [h1, h2, h3, h4, reasonResult]
              · cases hr : check_rate_limits env db req.lead_id convo req.allow_after_reply with
                | ok u => simp [h1, h2, h3, h4, hr, reasonResult]
                | error e => simp [h1, h2, h3, h4, hr, reasonResult]


theorem scanCursor_mem (env : Env) (ex : List (Int × Int)) (fromT day endM : Int) :
    ∀ (fuel : Nat) (cur : Int) (acc : List SlotChoice) (s : SlotChoice),
      s ∈ scanCursor env ex fromT day endM fuel cur acc →
      s ∈ acc ∨ ∃ k : Nat,
        cur + 40 * (k : Int) + 30 ≤ endM ∧
        s.start_at = day * 1440 + (cur + 40 * (k : Int)) - env.locOff ∧
        s.end_at = s.start_at + 30 ∧ fromT < s.start_at ∧
        has_appointment_conflict s.start_at s.end_at ex = false := by
  intro fuel
  induction fuel with
  | zero =>
    intro cur acc s h
    simp only [scanCursor] at h
    exact Or.inl h
  | succ n ih =>
    intro cur acc s h
    simp only [scanCursor] at h
    by_cases hlen : 2 ≤ acc.length
    · rw [if_pos hlen] at h; exact Or.inl h
    · rw [if_neg hlen] at h
      by_cases hend : endM < cur + 30
      · rw [if_pos hend] at h; exact Or.inl h
      · rw [if_neg hend] at h
        by_cases hfrom : day * 1440 + cur - env.locOff ≤ fromT
        · rw [if_pos hfrom] at h
          rcases ih (cur + 40) acc s h with hin | ⟨k, hk1, hk2, hk3, hk4, hk5⟩
          · exact Or.inl hin
          · refine Or.inr ⟨k + 1, ?_, ?_, hk3, hk4, hk5⟩
            · push_cast
              omega
            · push_cast
              omega
        · rw [if_neg hfrom] at h
          by_cases hconf : has_appointment_conflict (day * 1440 + cur - env.locOff)
              (day * 1440 + cur - env.locOff + 30) ex = true
          · rw [if_pos hconf] at h
            rcases ih (cur + 40) acc s h with hin | ⟨k, hk1, hk2, hk3, hk4, hk5⟩
            · exact Or.inl hin
            · refine Or.inr ⟨k + 1, ?_, ?_, hk3, hk4, hk5⟩
              · push_cast
                omega
              · push_cast
                omega
          · rw [if_neg hconf] at h
            rcases ih (cur + 40)
                (acc ++ [⟨day * 1440 + cur - env.locOff, day * 1440 + cur - env.locOff + 30⟩])
                s h with hin | ⟨k, hk1, hk2, hk3, hk4, hk5⟩
            · rcases List.mem_append.mp hin with hin2 | hin3
              · exact Or.inl hin2
              · have hs : s = ⟨day * 1440 + cur - env.locOff,
                    day * 1440 + cur - env.locOff + 30⟩ := by simpa using hin3
                subst hs
                refine Or.inr ⟨0, ?_, ?_, ?_, ?_, ?_⟩
                · push_cast; omega
                · show day * 1440 + cur - env.locOff = day * 1440 + (cur + 40 * ((0 : Nat) : Int)) - env.locOff
                  push_cast
                  ring
                · rfl
                · show fromT < day * 1440 + cur - env.locOff
                  omega
                · revert hconf
                  cases has_appointment_conflict (day * 1440 + cur - env.locOff)
                    (day * 1440 + cur - env.locOff + 30) ex <;> simp
            · refine Or.inr ⟨k + 1, ?_, ?_, hk3, hk4, hk5⟩
              · push_cast
                omega
              · push_cast
                omega

theorem scanCursor_len (env : Env) (ex : List (Int × Int)) (fromT day endM : Int) :
    ∀ (fuel : Nat) (cur : Int) (acc : List SlotChoice), acc.length ≤ 2 →
      (scanCursor env ex fromT day endM fuel cur acc).length ≤ 2 := by
  intro fuel
  induction fuel with
  | zero =>
    intro cur acc h
    simpa only [scanCursor] using h
  | succ n ih =>
    intro cur acc hacc
    simp only [scanCursor]
    by_cases hlen : 2 ≤ acc.length
    · rw [if_pos hlen]; exact hacc
    · rw [if_neg hlen]
      by_cases hend : endM < cur + 30
      · rw [if_pos hend]; exact hacc
      · rw [if_neg hend]
        by_cases hfrom : day * 1440 + cur - env.locOff ≤ fromT
        · rw [if_pos hfrom]; exact ih (cur + 40) acc hacc
        · rw [if_neg hfrom]
          by_cases hconf : has_appointment_conflict (day * 1440 + cur - env.locOff)
              (day * 1440 + cur - env.locOff + 30) ex = true
          · rw [if_pos hconf]; exact ih (cur + 40) acc hacc
          · rw [if_neg hconf]
            apply ih
            rw [List.length_append]
            simp only [List.length_singleton]
            omega

theorem scanRanges_mem (env : Env) (ex : List (Int × Int)) (fromT day : Int) :
    ∀ (ranges : List (Int × Int)) (acc : List SlotChoice) (s : SlotChoice),
      s ∈ scanRanges env ex fromT day ranges acc →
      s ∈ acc ∨ ∃ r, r ∈ ranges ∧ ∃ k : Nat,
        r.1 + 40 * (k : Int) + 30 ≤ r.2 ∧
        s.start_at = day * 1440 + (r.1 + 40 * (k : Int)) - env.locOff ∧
        s.end_at = s.start_at + 30 ∧ fromT < s.start_at ∧
        has_appointment_conflict s.start_at s.end_at ex = false := by
  intro ranges
  induction ranges with
  | nil =>
    intro acc s h
    simp only [scanRanges] at h
    exact Or.inl h
  | cons r rest ih =>
    intro acc s h
    simp only [scanRanges] at h
    by_cases h2 : 2 ≤ (scanCursor env ex fromT day r.2 ((r.2 - r.1).toNat + 1) r.1 acc).length
    · rw [if_pos h2] at h
      rcases scanCursor_mem env ex fromT day r.2 _ r.1 acc s h with hin | ⟨k, hk1, hk2, hk3, hk4, hk5⟩
      · exact Or.inl hin
      · exact Or.inr ⟨r, List.mem_cons_self r rest, k, hk1, hk2, hk3, hk4, hk5⟩
    · rw [if_neg h2] at h
      rcases ih _ s h with hin | ⟨r2, hr2, k, hk1, hk2, hk3, hk4, hk5⟩
      · rcases scanCursor_mem env ex fromT day r.2 _ r.1 acc s hin with
          hin2 | ⟨k, hk1, hk2, hk3, hk4, hk5⟩
        · exact Or.inl hin2
        · exact Or.inr ⟨r, List.mem_cons_self r rest, k, hk1, hk2, hk3, hk4, hk5⟩
      · exact Or.inr ⟨r2, List.mem_cons_of_mem r hr2, k, hk1, hk2, hk3, hk4, hk5⟩

theorem scanRanges_len (env : Env) (ex : List (Int × Int)) (fromT day : Int) :
    ∀ (ranges : List (Int × Int)) (acc : List SlotChoice), acc.length ≤ 2 →
      (scanRanges env ex fromT day ranges acc).length ≤ 2 := by
  intro ranges
  induction ranges with
  | nil =>
    intro acc h
    simpa only [scanRanges] using h
  | cons r rest ih =>
    intro acc hacc
    simp only [scanRanges]
    by_cases h2 : 2 ≤ (scanCursor env ex fromT day r.2 ((r.2 - r.1).toNat + 1) r.1 acc).length
    · rw [if_pos h2]
      exact scanCursor_len env ex fromT day r.2 _ r.1 acc hacc
    · rw [if_neg h2]
      exact ih _ (scanCursor_len env ex fromT day r.2 _ r.1 acc hacc)

theorem scanDays_mem (env : Env) (ex : List (Int × Int)) (fromT startDay : Int) :
    ∀ (fuel : Nat) (dayOffset : Int) (busSeen : Nat) (acc : List SlotChoice) (s : SlotChoice),
      s ∈ scanDays env ex fromT startDay fuel dayOffset busSeen acc →
      s ∈ acc ∨ ∃ day : Int, ∃ r, r ∈ env.hours (weekdayOf day) ∧ ∃ k : Nat,
        r.1 + 40 * (k : Int) + 30 ≤ r.2 ∧
        s.start_at = day * 1440 + (r.1 + 40 * (k : Int)) - env.locOff ∧
        s.end_at = s.start_at + 30 ∧ fromT < s.start_at ∧
        has_appointment_conflict s.start_at s.end_at ex = false := by
  intro fuel
  induction fuel with
  | zero =>
    intro dayOffset busSeen acc s h
    simp only [scanDays] at h
    exact Or.inl h
  | succ n ih =>
    intro dayOffset busSeen acc s h
    simp only [scanDays] at h
    by_cases h3 : 3 ≤ busSeen
    · rw [if_pos h3] at h; exact Or.inl h
    · rw [if_neg h3] at h
      by_cases hemp : (env.hours (weekdayOf (startDay + dayOffset))).isEmpty = true
      · rw [if_pos hemp] at h
        exact ih (dayOffset + 1) busSeen acc s h
      · rw [if_neg hemp] at h
        by_cases h2 : 2 ≤ (scanRanges env ex fromT (startDay + dayOffset)
            (env.hours (weekdayOf (startDay + dayOffset))) acc).length
        · rw [if_pos h2] at h
          rcases scanRanges_mem env ex fromT (startDay + dayOffset) _ acc s h with
            hin | ⟨r, hr, k, hk⟩
          · exact Or.inl hin
          · exact Or.inr ⟨startDay + dayOffset, r, hr, k, hk⟩
        · rw [if_neg h2] at h
          rcases ih (dayOffset + 1) (busSeen + 1) _ s h with hin | hday
          · rcases scanRanges_mem env ex fromT (startDay + dayOffset) _ acc s hin with
              hin2 | ⟨r, hr, k, hk⟩
            · exact Or.inl hin2
            · exact Or.inr ⟨startDay + dayOffset, r, hr, k, hk⟩
          · exact Or.inr hday

theorem scanDays_len (env : Env) (ex : List (Int × Int)) (fromT startDay : Int) :
    ∀ (fuel : Nat) (dayOffset : Int) (busSeen : Nat) (acc : List SlotChoice),
      acc.length ≤ 2 →
      (scanDays env ex fromT startDay fuel dayOffset busSeen acc).length ≤ 2 := by
  intro fuel
  induction fuel with
  | zero =>
    intro dayOffset busSeen acc h
    simpa only [scanDays] using h
  | succ n ih =>
    intro dayOffset busSeen acc hacc
    simp only [scanDays]
    by_cases h3 : 3 ≤ busSeen
    · rw [if_pos h3]; exact hacc
    · rw [if_neg h3]
      by_cases hemp : (env.hours (weekdayOf (startDay + dayOffset))).isEmpty = true
      · rw [if_pos hemp]; exact ih (dayOffset + 1) busSeen acc hacc
      · rw [if_neg hemp]
        by_cases h2 : 2 ≤ (scanRanges env ex fromT (startDay + dayOffset)
            (env.hours (weekdayOf (startDay + dayOffset))) acc).length
        · rw [if_pos h2]
          exact scanRanges_len env ex fromT (startDay + dayOffset) _ acc hacc
        · rw [if_neg h2]
          exact ih (dayOffset + 1) (busSeen + 1) _
            (scanRanges_len env ex fromT (startDay + dayOffset) _ acc hacc)

/-- C7: generate_slot_choices returns at most 2 slots (it stops as soon as 2
are accepted), and every returned slot is a 30-minute window on a 40-minute
stride from some interval's open time with cursor + 30 ≤ close, starting
strictly after from_utc, conflicting with no loaded booked appointment under
the 10-minute buffer. -/
theorem generate_slot_choices_sound (env : Env) (db : DB) (fromT : Int) :
    (generate_slot_choices env db fromT).length ≤ 2 ∧
    ∀ s ∈ generate_slot_choices env db fromT,
      SlotValid env (loadBookedAppointments env db) fromT s := by
  constructor
  · exact scanDays_len env (loadBookedAppointments env db) fromT
      (localDay env.locOff fromT) 14 0 0 [] (by simp)
  · intro s hs
    rw [generate_slot_choices] at hs
    rcases scanDays_mem env (loadBookedAppointments env db) fromT
        (localDay env.locOff fromT) 14 0 0 [] s hs with hin | ⟨day, r, hr, k, hk1, hk2, hk3, hk4, hk5⟩
    · exact absurd hin (List.not_mem_nil s)
    · exact ⟨⟨day, r, hr, k, hk2, hk1⟩, hk3, hk4, hk5⟩

theorem generate_slot_choices_sound_witness :
    (⟨540, 570⟩ : SlotChoice) ∈ generate_slot_choices envS dbEmpty 0 ∧
    SlotValid envS (loadBookedAppointments envS dbEmpty) 0 ⟨540, 570⟩ ∧
    (generate_slot_choices envS dbEmpty 0).length ≤ 2 :=
  ⟨by decide,
   (generate_slot_choices_sound envS dbEmpty 0).2 ⟨540, 570⟩ (by decide),
   (generate_slot_choices_sound envS dbEmpty 0).1⟩


theorem flagReasonCount_flag (env : Env) (db : DB) (lid : Int) (r0 r : String) :
    flagReasonCount (flag_needs_staff_attention env db lid r0) r =
      flagReasonCount db r +
        (if (("reason=" ++ r0) == ("reason=" ++ r)) then 1 else 0) := by
  unfold flag_needs_staff_attention
  rw [flagReasonCount_insert]
  have h : (("flag_needs_staff_attention" : String) == "flag_needs_staff_attention") = true := by
    decide
  rw [h]
  simp only [Bool.true_and]
  rfl

theorem auditActionCount_flag (env : Env) (db : DB) (lid : Int) (r q : String) :
    auditActionCount (flag_needs_staff_attention env db lid r) q =
      auditActionCount db q + (if (("flag_needs_staff_attention" : String) == q) then 1 else 0) := by
  unfold flag_needs_staff_attention
  rw [auditActionCount_insert]
  rfl

theorem convRepair_updBy_set (st : String) (offered : List SlotChoice) (attempts cid : Int)
    (l : List Conversation) (convo : Conversation)
    (hfind : l.find? (fun c => c.id == cid) = some convo) :
    Option.map (fun c => c.repair_attempts)
      (List.find? (fun c => c.id == cid)
        (updBy (fun c => c.id) cid
          (fun c => { c with state := st, offered_slots := offered, repair_attempts := attempts })
          l)) = some attempts := by
  unfold updBy
  rw [find?_map_comm
    (fun c => if c.id == cid then
      { c with state := st, offered_slots := offered, repair_attempts := attempts } else c)
    (fun c => c.id == cid)
    (by intro a; by_cases h : a.id = cid <;> simp [h]) l]
  rw [hfind]
  have h2 : convo.id = cid := by simpa using List.find?_some hfind
  simp [h2]

/-- C8 (counterexample): with repair_attempts = 1 and no available slots, the
repair branch leaves the stored repair_attempts at 1 (the incremented value is
never persisted) and flags only repair_no_slots, although the post-increment
value 2 is ≥ 2 and the claim demands a repair_attempts_exceeded flag. -/
theorem repair_branch_counterexample :
    convoR.repair_attempts + 1 = 2 ∧
    (generate_slot_choices envNoH dbR envNoH.now).length = 0 ∧
    convRepairAttempts (handle_time_choice_repair envNoH dbR leadR convoR).2 1 = some 1 ∧
    flagReasonCount (handle_time_choice_repair envNoH dbR leadR convoR).2
      "repair_attempts_exceeded" = 0 ∧
    flagReasonCount (handle_time_choice_repair envNoH dbR leadR convoR).2
      "repair_no_slots" = 1 := by
  refine ⟨rfl, ?_, ?_, ?_, ?_⟩ <;> decide

/-- C8 (amended): on an invalid response in awaiting_time_choice the repair
branch computes attempts = repair_attempts + 1 and regenerates fresh slots.
If fewer than 2 slots are found it flags the lead with reason repair_no_slots,
attempts one apology outbound through the gateway, and leaves the stored
repair_attempts unchanged (no exceeded flag even when attempts ≥ 2).
Otherwise it persists the new slots with repair_attempts = attempts, flags
repair_attempts_exceeded exactly when attempts ≥ 2, and attempts one
corrective-offer outbound through the gateway. -/
theorem repair_branch_amended (env : Env) (db : DB) (lead : Lead) (convo : Conversation)
    (hfind : db.conversations.find? (fun c => c.id == convo.id) = some convo) :
    ((generate_slot_choices env db env.now).length < 2 →
      convRepairAttempts (handle_time_choice_repair env db lead convo).2 convo.id =
        some convo.repair_attempts ∧
      flagReasonCount (handle_time_choice_repair env db lead convo).2 "repair_no_slots" =
        flagReasonCount db "repair_no_slots" + 1 ∧
      flagReasonCount (handle_time_choice_repair env db lead convo).2
        "repair_attempts_exceeded" = flagReasonCount db "repair_attempts_exceeded" ∧
      auditActionCount (handle_time_choice_repair env db lead convo).2
        "create_outbound_message" = auditActionCount db "create_outbound_message" + 1) ∧
    (2 ≤ (generate_slot_choices env db env.now).length →
      convRepairAttempts (handle_time_choice_repair env db lead convo).2 convo.id =
        some (convo.repair_attempts + 1) ∧
      (2 ≤ convo.repair_attempts + 1 →
        flagReasonCount (handle_time_choice_repair env db lead convo).2
          "repair_attempts_exceeded" = flagReasonCount db "repair_attempts_exceeded" + 1) ∧
      (convo.repair_attempts + 1 < 2 →
        flagReasonCount (handle_time_choice_repair env db lead convo).2
          "repair_attempts_exceeded" = flagReasonCount db "repair_attempts_exceeded") ∧
      auditActionCount (handle_time_choice_repair env db lead convo).2
        "create_outbound_message" = auditActionCount db "create_outbound_message" + 1) := by
  constructor
  · intro hlt
    have hres : (handle_time_choice_repair env db lead convo).2 =
        (create_outbound_message env
          (flag_needs_staff_attention env db lead.id "repair_no_slots")
          (stateMachineOutbound lead convo
            "I couldn't match that response to a slot. A staff member has been flagged to help.")).2 := by
      simp only [handle_time_choice_repair]
      rw [if_pos hlt]
      rfl
    refine ⟨?_, ?_, ?_, ?_⟩
    · rw [hres, convRepairAttempts_create_outbound]
      show convRepairAttempts db convo.id = some convo.repair_attempts
      unfold convRepairAttempts
      rw [hfind]
      rfl
    · rw [hres, create_outbound_message_flag_count, flagReasonCount_flag]
      have hb : (("reason=" ++ "repair_no_slots" : String) ==
          ("reason=" ++ "repair_no_slots")) = true := by decide
      rw [hb]
      simp
    · rw [hres, create_outbound_message_flag_count, flagReasonCount_flag]
      have hb : (("reason=" ++ "repair_no_slots" : String) ==
          ("reason=" ++ "repair_attempts_exceeded")) = false := by decide
      rw [hb]
      simp
    · rw [hres, create_outbound_message_audit_count, auditActionCount_flag]
      have h1 : (("flag_needs_staff_attention" : String) == "create_outbound_message") = false := by
        decide
      have h2 : (("create_outbound_message" : String) == "create_outbound_message") = true := by
        decide
      rw [h1, h2]
      simp
  · intro hge
    obtain ⟨s1, s2, rest, hO⟩ : ∃ s1 s2 rest,
        generate_slot_choices env db env.now = s1 :: s2 :: rest := by
      cases hO : generate_slot_choices env db env.now with
      | nil => rw [hO] at hge; simp at hge
      | cons a t =>
        cases t with
        | nil => rw [hO] at hge; simp at hge
        | cons b r => exact ⟨a, b, r, rfl⟩
    have hnl : ¬ ((s1 :: s2 :: rest).length < 2) := by
      simp only [List.length_cons]
      omega
    by_cases hatt : 2 ≤ convo.repair_attempts + 1
    · have hres : (handle_time_choice_repair env db lead convo).2 =
          (create_outbound_message env
            { flag_needs_staff_attention env db lead.id "repair_attempts_exceeded" with
              conversations := updBy (fun c => c.id) convo.id (fun c => { c with state := "awaiting_time_choice", offered_slots := s1 :: s2 :: rest, repair_attempts := convo.repair_attempts + 1 }) db.conversations }
            (stateMachineOutbound lead convo
              ("Please reply with 1 or 2 so I can book your session.\n\n" ++
                ("Choose a time:\n1) " ++ local_display env.locOff s1.start_at ++
                  "\n2) " ++ local_display env.locOff s2.start_at ++
                  "\n\nReply 1 or 2.") ++
                "\n\nI also flagged this conversation for staff follow-up."))).2 := by
        simp only [handle_time_choice_repair]
        rw [hO]
        rw [if_neg hnl]
        simp only [format_slot_offer]
        rw [if_pos hatt]
        rfl
      refine ⟨?_, fun _ => ?_, fun hc => absurd hatt (by omega), ?_⟩
      · rw [hres, convRepairAttempts_create_outbound]
        exact convRepair_updBy_set "awaiting_time_choice" (s1 :: s2 :: rest)
          (convo.repair_attempts + 1) convo.id db.conversations convo hfind
      · rw [hres, create_outbound_message_flag_count]
        show flagReasonCount
          (flag_needs_staff_attention env db lead.id "repair_attempts_exceeded")
          "repair_attempts_exceeded" = _
        rw [flagReasonCount_flag]
        have hb : (("reason=" ++ "repair_attempts_exceeded" : String) ==
            ("reason=" ++ "repair_attempts_exceeded")) = true := by decide
        rw [hb]
        simp
      · rw [hres, create_outbound_message_audit_count]
        have h2 : (("create_outbound_message" : String) == "create_outbound_message") = true := by
          decide
        rw [h2]
        show auditActionCount
          (flag_needs_staff_attention env db lead.id "repair_attempts_exceeded")
          "create_outbound_message" + 1 = _
        rw [auditActionCount_flag]
        have h1 : (("flag_needs_staff_attention" : String) == "create_outbound_message") = false := by
          decide
        rw [h1]
        simp
    · have hres : (handle_time_choice_repair env db lead convo).2 =
          (create_outbound_message env
            { db with
              conversations := updBy (fun c => c.id) convo.id (fun c => { c with state := "awaiting_time_choice", offered_slots := s1 :: s2 :: rest, repair_attempts := convo.repair_attempts + 1 }) db.conversations }
            (stateMachineOutbound lead convo
              ("Please reply with 1 or 2 so I can book your session.\n\n" ++
                ("Choose a time:\n1) " ++ local_display env.locOff s1.start_at ++
                  "\n2) " ++ local_display env.locOff s2.start_at ++
                  "\n\nReply 1 or 2.")))).2 := by
        simp only [handle_time_choice_repair]
        rw [hO]
        rw [if_neg hnl]
        simp only [format_slot_offer]
        rw [if_neg hatt]
        rfl
      refine ⟨?_, fun hc => absurd hc hatt, fun _ => ?_, ?_⟩
      · rw [hres, convRepairAttempts_create_outbound]
        exact convRepair_updBy_set "awaiting_time_choice" (s1 :: s2 :: rest)
          (convo.repair_attempts + 1) convo.id db.conversations convo hfind
      · rw [hres, create_outbound_message_flag_count]
        rfl
      · rw [hres, create_outbound_message_audit_count]
        have h2 : (("create_outbound_message" : String) == "create_outbound_message") = true := by
          decide
        rw [h2]
        simp only [if_true]
        rfl

theorem repair_branch_amended_witness :
    ((generate_slot_choices envNoH dbR envNoH.now).length < 2 ∧
      convRepairAttempts (handle_time_choice_repair envNoH dbR leadR convoR).2 1 =
        some convoR.repair_attempts ∧
      flagReasonCount (handle_time_choice_repair envNoH dbR leadR convoR).2 "repair_no_slots" =
        flagReasonCount dbR "repair_no_slots" + 1) ∧
    (2 ≤ (generate_slot_choices envA dbR2 envA.now).length ∧
      convRepairAttempts (handle_time_choice_repair envA dbR2 leadR convoR).2 1 =
        some (convoR.repair_attempts + 1) ∧
      flagReasonCount (handle_time_choice_repair envA dbR2 leadR convoR).2
        "repair_attempts_exceeded" =
        flagReasonCount dbR2 "repair_attempts_exceeded" + 1) :=
  ⟨⟨by decide,
    ((repair_branch_amended envNoH dbR leadR convoR (by decide)).1 (by decide)).1,
    ((repair_branch_amended envNoH dbR leadR convoR (by decide)).1 (by decide)).2.1⟩,
   ⟨by decide,
    ((repair_branch_amended envA dbR2 leadR convoR (by decide)).2 (by decide)).1,
    ((repair_branch_amended envA dbR2 leadR convoR (by decide)).2 (by decide)).2.1 (by decide)⟩⟩


theorem jobStatusOf_congr (dbA dbB : DB) (q : Int) (h : dbA.jobs = dbB.jobs) :
    jobStatusOf dbA q = jobStatusOf dbB q := by
  unfold jobStatusOf
  rw [h]

theorem is_kill_switch_congr (dbA dbB : DB) (h : dbA.kill_switch = dbB.kill_switch) :
    is_kill_switch_enabled dbA = is_kill_switch_enabled dbB := by
  unfold is_kill_switch_enabled
  rw [h]

theorem jobFound_markJob (db : DB) (jid q : Int) (st : String) :
    ((markJob db jid st).jobs.find? (fun j => j.id == q)).isSome =
      (db.jobs.find? (fun j => j.id == q)).isSome := by
  unfold markJob updBy
  rw [find?_map_comm (fun j => if j.id == jid then { j with status := st } else j)
    (fun j => j.id == q)
    (by intro a; by_cases h : a.id = jid <;> simp [h]) db.jobs]
  cases db.jobs.find? (fun j => j.id == q) <;> rfl

theorem execute_initial_follow_up_jobs (env : Env) (db : DB) (lid : Int) :
    (execute_initial_follow_up env db lid).2.jobs = db.jobs := by
  unfold execute_initial_follow_up
  split
  · rfl
  · split
    · rfl
    · split
      · rename_i xl lead hleq xc convo hceq xp e db1 heq
        have h := create_outbound_message_jobs env db (initialFollowUpRequest env lead convo lid)
        rw [heq] at h
        exact h
      · rename_i xl lead hleq xc convo hceq xp v db1 heq
        have h := create_outbound_message_jobs env db (initialFollowUpRequest env lead convo lid)
        rw [heq] at h
        exact h

theorem execute_initial_follow_up_kill (env : Env) (db : DB) (lid : Int) :
    (execute_initial_follow_up env db lid).2.kill_switch = db.kill_switch := by
  unfold execute_initial_follow_up
  split
  · rfl
  · split
    · rfl
    · split
      · rename_i xl lead hleq xc convo hceq xp e db1 heq
        have h := create_outbound_message_kill env db (initialFollowUpRequest env lead convo lid)
        rw [heq] at h
        exact h
      · rename_i xl lead hleq xc convo hceq xp v db1 heq
        have h := create_outbound_message_kill env db (initialFollowUpRequest env lead convo lid)
        rw [heq] at h
        exact h

theorem execute_initial_follow_up_audit (env : Env) (db : DB) (lid : Int) :
    auditActionCount (execute_initial_follow_up env db lid).2 "run_scheduled_job" =
      auditActionCount db "run_scheduled_job" := by
  have hb : (("create_outbound_message" : String) == "run_scheduled_job") = false := by decide
  unfold execute_initial_follow_up
  split
  · rfl
  · split
    · rfl
    · split
      · rename_i xl lead hleq xc convo hceq xp e db1 heq
        have h := create_outbound_message_audit_count env db
          (initialFollowUpRequest env lead convo lid) "run_scheduled_job"
        rw [hb] at h
        simp at h
        rw [heq] at h
        exact h
      · rename_i xl lead hleq xc convo hceq xp v db1 heq
        have h := create_outbound_message_audit_count env db
          (initialFollowUpRequest env lead convo lid) "run_scheduled_job"
        rw [hb] at h
        simp at h
        rw [heq] at h
        exact h

theorem execute_initial_follow_up_frame (env : Env) (db : DB) (lid : Int) :
    (execute_initial_follow_up env db lid).2.jobs = db.jobs ∧
    (execute_initial_follow_up env db lid).2.kill_switch = db.kill_switch ∧
    auditActionCount (execute_initial_follow_up env db lid).2 "run_scheduled_job" =
      auditActionCount db "run_scheduled_job" :=
  ⟨execute_initial_follow_up_jobs env db lid, execute_initial_follow_up_kill env db lid,
   execute_initial_follow_up_audit env db lid⟩

theorem execute_appointment_reminder_frame (env : Env) (db : DB) (lid aid st : Int) :
    (execute_appointment_reminder env db lid aid st).2.jobs = db.jobs ∧
    (execute_appointment_reminder env db lid aid st).2.kill_switch = db.kill_switch ∧
    auditActionCount (execute_appointment_reminder env db lid aid st).2 "run_scheduled_job" =
      auditActionCount db "run_scheduled_job" := by
  have hb : (("create_outbound_message" : String) == "run_scheduled_job") = false := by decide
  refine ⟨?_, ?_, ?_⟩ <;>
  · unfold execute_appointment_reminder
    split
    · rfl
    · split
      · rfl
      · rename_i xl lead hleq xc convo hceq
        have hj := create_outbound_message_jobs env db (reminderRequest env lead convo lid st)
        have hk := create_outbound_message_kill env db (reminderRequest env lead convo lid st)
        have ha := create_outbound_message_audit_count env db
          (reminderRequest env lead convo lid st) "run_scheduled_job"
        rw [hb] at ha
        simp at ha
        first
        | exact hj
        | exact hk
        | exact ha

theorem dispatchJob_frame (env : Env) (db : DB) (j : ScheduledJob) (r : Except String Unit)
    (db1 : DB) (h : dispatchJob env db j = .ok (r, db1)) :
    db1.jobs = db.jobs ∧ db1.kill_switch = db.kill_switch ∧
    auditActionCount db1 "run_scheduled_job" = auditActionCount db "run_scheduled_job" := by
  unfold dispatchJob at h
  by_cases h1 : (j.job_type == "initial_follow_up") = true
  · rw [if_pos h1] at h
    injection h with h2
    have hf := execute_initial_follow_up_frame env db (payloadLeadId j.payload)
    rw [h2] at hf
    exact hf
  · rw [if_neg h1] at h
    by_cases h2 : (j.job_type == "appointment_reminder") = true
    · rw [if_pos h2] at h
      cases hp : j.payload with
      | initialFollowUp lid => rw [hp] at h; exact Except.noConfusion h
      | reminder lid aid st =>
        rw [hp] at h
        injection h with h3
        have hf := execute_appointment_reminder_frame env db lid aid st
        rw [h3] at hf
        exact hf
    · rw [if_neg h2] at h
      injection h with h3
      have hdb : db1 = db := congrArg Prod.snd h3.symm
      rw [hdb]
      exact ⟨rfl, rfl, rfl⟩

theorem mem_insertByExec (j x : ScheduledJob) :
    ∀ l : List ScheduledJob, x ∈ insertByExec j l ↔ x = j ∨ x ∈ l := by
  intro l
  induction l with
  | nil => simp [insertByExec]
  | cons k ks ih =>
    simp only [insertByExec]
    by_cases h : j.execute_at ≤ k.execute_at
    · rw [if_pos h]
      simp [List.mem_cons]
    · rw [if_neg h]
      simp only [List.mem_cons, ih]
      tauto

theorem mem_sortByExec (x : ScheduledJob) :
    ∀ l : List ScheduledJob, x ∈ sortByExec l ↔ x ∈ l := by
  intro l
  induction l with
  | nil => simp [sortByExec]
  | cons k ks ih =>
    simp only [sortByExec, mem_insertByExec, ih, List.mem_cons]

theorem runJobsLoop_spec (env : Env) :
    ∀ (todo : List ScheduledJob) (db : DB) (p0 s0 e0 : Int),
      is_kill_switch_enabled db = false →
      todo.all jobWellFormed = true →
      (todo.map (fun j => j.id)).Nodup →
      (∀ j ∈ todo, (db.jobs.find? (fun x => x.id == j.id)).isSome = true) →
      ∃ (p e : Nat) (db2 : DB),
        runJobsLoop env db todo p0 s0 e0 = (.ok ⟨p0 + (p : Int), s0, e0 + (e : Int)⟩, db2) ∧
        p + e = todo.length ∧
        p = (todo.filter (fun j => jobStatusOf db2 j.id == some "completed")).length ∧
        e = (todo.filter (fun j => jobStatusOf db2 j.id == some "failed")).length ∧
        auditActionCount db2 "run_scheduled_job" =
          auditActionCount db "run_scheduled_job" + e ∧
        db2.kill_switch = db.kill_switch ∧
        (∀ q : Int, q ∉ todo.map (fun j => j.id) → jobStatusOf db2 q = jobStatusOf db q) := by
  intro todo
  induction todo with
  | nil =>
    intro db p0 s0 e0 hks hwf hnd hin
    refine ⟨0, 0, db, ?_, rfl, rfl, rfl, by simp, rfl, fun q hq => rfl⟩
    simp [runJobsLoop]
  | cons j rest ih =>
    intro db p0 s0 e0 hks hwf hnd hin
    have hcond : ¬ (is_kill_switch_enabled db = true) := by rw [hks]; simp
    have hwfj : jobWellFormed j = true :=
      List.all_eq_true.mp hwf j (List.mem_cons_self j rest)
    have hwfr : rest.all jobWellFormed = true := by
      rw [List.all_eq_true]
      intro x hx
      exact List.all_eq_true.mp hwf x (List.mem_cons_of_mem j hx)
    have hndr : (rest.map (fun j => j.id)).Nodup := (List.nodup_cons.mp hnd).2
    have hjid : j.id ∉ rest.map (fun j => j.id) := (List.nodup_cons.mp hnd).1
    obtain ⟨r, db1, hdisp⟩ : ∃ r db1, dispatchJob env db j = .ok (r, db1) := by
      unfold dispatchJob
      by_cases h1 : (j.job_type == "initial_follow_up") = true
      · rw [if_pos h1]; exact ⟨_, _, rfl⟩
      · rw [if_neg h1]
        by_cases h2 : (j.job_type == "appointment_reminder") = true
        · rw [if_pos h2]
          cases hp : j.payload with
          | reminder lid aid st => exact ⟨_, _, rfl⟩
          | initialFollowUp lid =>
            exfalso
            unfold jobWellFormed at hwfj
            rw [hp] at hwfj
            have hne : (j.job_type != "appointment_reminder") = false := by
              simp only [bne, h2, Bool.not_true]
            rw [hne] at hwfj
            simp at hwfj
        · rw [if_neg h2]; exact ⟨_, _, rfl⟩
    obtain ⟨hfj, hfk, hfa⟩ := dispatchJob_frame env db j r db1 hdisp
    have hfound1 : (db1.jobs.find? (fun x => x.id == j.id)).isSome = true := by
      rw [hfj]
      exact hin j (List.mem_cons_self j rest)
    cases r with
    | ok u =>
      have hstep : runJobsLoop env db (j :: rest) p0 s0 e0 =
          runJobsLoop env (markJob db1 j.id "completed") rest (p0 + 1) s0 e0 := by
        simp only [runJobsLoop]
        rw [if_neg hcond, hdisp]
      have hks2 : is_kill_switch_enabled (markJob db1 j.id "completed") = false := by
        rw [is_kill_switch_congr (markJob db1 j.id "completed") db (by rw [show (markJob db1 j.id "completed").kill_switch = db1.kill_switch from rfl, hfk])]
        exact hks
      have hin2 : ∀ x ∈ rest,
          ((markJob db1 j.id "completed").jobs.find? (fun y => y.id == x.id)).isSome = true := by
        intro x hx
        rw [jobFound_markJob db1 j.id x.id "completed", hfj]
        exact hin x (List.mem_cons_of_mem j hx)
      obtain ⟨p, e, db2, hrun, hpe, hp, he, haud, hkill, hun⟩ :=
        ih (markJob db1 j.id "completed") (p0 + 1) s0 e0 hks2 hwfr hndr hin2
      have hstatj : jobStatusOf db2 j.id = some "completed" := by
        rw [hun j.id hjid]
        exact jobStatusOf_markJob_self db1 j.id "completed" hfound1
      refine ⟨p + 1, e, db2, ?_, ?_, ?_, ?_, ?_, ?_, ?_⟩
      · rw [hstep, hrun]
        have harith : (p0 + 1) + (p : Int) = p0 + ((p + 1 : Nat) : Int) := by push_cast; ring
        rw [harith]
      · rw [List.length_cons]; omega
      · rw [List.filter_cons]
        have hc : (jobStatusOf db2 j.id == some "completed") = true := by
          rw [hstatj]; rfl
        rw [hc, if_pos rfl, List.length_cons]
        omega
      · rw [List.filter_cons]
        have hc : (jobStatusOf db2 j.id == some "failed") = false := by
          rw [hstatj]; rfl
        rw [hc, if_neg Bool.false_ne_true]
        exact he
      · rw [haud]
        have h1 : auditActionCount (markJob db1 j.id "completed") "run_scheduled_job" =
            auditActionCount db1 "run_scheduled_job" := rfl
        rw [h1, hfa]
      · rw [hkill]
        rw [show (markJob db1 j.id "completed").kill_switch = db1.kill_switch from rfl, hfk]
      · intro q hq
        have hq2 : q ≠ j.id ∧ q ∉ rest.map (fun x => x.id) := by
          rw [List.map_cons, List.mem_cons] at hq
          push_neg at hq
          exact hq
        rw [hun q hq2.2, jobStatusOf_markJob_other db1 j.id q "completed" hq2.1]
        exact jobStatusOf_congr db1 db q hfj
    | error err =>
      have hstep : runJobsLoop env db (j :: rest) p0 s0 e0 =
          runJobsLoop env
            (insert_audit env (markJob db1 j.id "failed") "run_scheduled_job" "scheduled_job"
              (some (toString j.id)) "" false (some err)) rest p0 s0 (e0 + 1) := by
        simp only [runJobsLoop]
        rw [if_neg hcond, hdisp]
      set dbm := insert_audit env (markJob db1 j.id "failed") "run_scheduled_job" "scheduled_job"
        (some (toString j.id)) "" false (some err) with hdbm
      have hks2 : is_kill_switch_enabled dbm = false := by
        rw [is_kill_switch_congr dbm db (by rw [show dbm.kill_switch = db1.kill_switch from rfl, hfk])]
        exact hks
      have hin2 : ∀ x ∈ rest, (dbm.jobs.find? (fun y => y.id == x.id)).isSome = true := by
        intro x hx
        rw [show dbm.jobs = (markJob db1 j.id "failed").jobs from rfl]
        rw [jobFound_markJob db1 j.id x.id "failed", hfj]
        exact hin x (List.mem_cons_of_mem j hx)
      obtain ⟨p, e, db2, hrun, hpe, hp, he, haud, hkill, hun⟩ :=
        ih dbm p0 s0 (e0 + 1) hks2 hwfr hndr hin2
      have hstatj : jobStatusOf db2 j.id = some "failed" := by
        rw [hun j.id hjid]
        rw [show jobStatusOf dbm j.id = jobStatusOf (markJob db1 j.id "failed") j.id from rfl]
        exact jobStatusOf_markJob_self db1 j.id "failed" hfound1
      refine ⟨p, e + 1, db2, ?_, ?_, ?_, ?_, ?_, ?_, ?_⟩
      · rw [hstep, hrun]
        have harith : (e0 + 1) + (e : Int) = e0 + ((e + 1 : Nat) : Int) := by push_cast; ring
        rw [harith]
      · rw [List.length_cons]; omega
      · rw [List.filter_cons]
        have hc : (jobStatusOf db2 j.id == some "completed") = false := by
          rw [hstatj]; rfl
        rw [hc, if_neg Bool.false_ne_true]
        exact hp
      · rw [List.filter_cons]
        have hc : (jobStatusOf db2 j.id == some "failed") = true := by
          rw [hstatj]; rfl
        rw [hc, if_pos rfl, List.length_cons]
        omega
      · rw [haud]
        have h1 : auditActionCount dbm "run_scheduled_job" =
            auditActionCount (markJob db1 j.id "failed") "run_scheduled_job" + 1 := by
          rw [hdbm, auditActionCount_insert]
          have hb : (("run_scheduled_job" : String) == "run_scheduled_job") = true := by decide
          rw [hb, if_pos rfl]
        have h2 : auditActionCount (markJob db1 j.id "failed") "run_scheduled_job" =
            auditActionCount db1 "run_scheduled_job" := rfl
        rw [h1, h2, hfa]
        omega
      · rw [hkill]
        rw [show dbm.kill_switch = db1.kill_switch from rfl, hfk]
      · intro q hq
        have hq2 : q ≠ j.id ∧ q ∉ rest.map (fun x => x.id) := by
          rw [List.map_cons, List.mem_cons] at hq
          push_neg at hq
          exact hq
        rw [hun q hq2.2]
        rw [show jobStatusOf dbm q = jobStatusOf (markJob db1 j.id "failed") q from rfl]
        rw [jobStatusOf_markJob_other db1 j.id q "failed" hq2.1]
        exact jobStatusOf_congr db1 db q hfj

/-- C9: with the kill switch off, run_due_jobs gives every dispatched due job
a terminal status — completed exactly when its handler succeeded, failed
otherwise (an unknown job_type is a failure) — appends one run_scheduled_job
audit row per failure, continues past failures, and returns processed = the
number of completions and errors = the number of failures. -/
theorem run_due_jobs_spec (env : Env) (db : DB)
    (hks : is_kill_switch_enabled db = false)
    (hwf : (dueJobs env db).all jobWellFormed = true)
    (hnd : ((dueJobs env db).map (fun j => j.id)).Nodup) :
    ∃ (p e : Nat) (db2 : DB),
      run_due_jobs env db = (.ok ⟨(p : Int), 0, (e : Int)⟩, db2) ∧
      p + e = (dueJobs env db).length ∧
      p = ((dueJobs env db).filter (fun j => jobStatusOf db2 j.id == some "completed")).length ∧
      e = ((dueJobs env db).filter (fun j => jobStatusOf db2 j.id == some "failed")).length ∧
      auditActionCount db2 "run_scheduled_job" =
        auditActionCount db "run_scheduled_job" + e := by
  have hin : ∀ j ∈ dueJobs env db, (db.jobs.find? (fun x => x.id == j.id)).isSome = true := by
    intro j hj
    rw [List.find?_isSome]
    refine ⟨j, ?_, by simp⟩
    have hj2 : j ∈ db.jobs.filter (fun x =>
        x.status == "pending" && decide (x.execute_at ≤ env.now)) := by
      unfold dueJobs at hj
      exact (mem_sortByExec j _).mp hj
    exact List.mem_of_mem_filter hj2
  obtain ⟨p, e, db2, hrun, hpe, hp, he, haud, _, _⟩ :=
    runJobsLoop_spec env (dueJobs env db) db 0 0 0 hks hwf hnd hin
  refine ⟨p, e, db2, ?_, hpe, hp, he, haud⟩
  unfold run_due_jobs
  rw [if_neg (show ¬ (is_kill_switch_enabled db = true) by rw [hks]; simp), hrun]
  norm_num

theorem run_due_jobs_spec_witness :
    ∃ (p e : Nat) (db2 : DB),
      run_due_jobs envA dbJ = (.ok ⟨(p : Int), 0, (e : Int)⟩, db2) ∧
      p + e = (dueJobs envA dbJ).length ∧
      p = ((dueJobs envA dbJ).filter (fun j => jobStatusOf db2 j.id == some "completed")).length ∧
      e = ((dueJobs envA dbJ).filter (fun j => jobStatusOf db2 j.id == some "failed")).length ∧
      auditActionCount db2 "run_scheduled_job" =
        auditActionCount dbJ "run_scheduled_job" + e :=
  run_due_jobs_spec envA dbJ (by decide) (by decide) (by decide)

end GoldBot
